import Mathlib

set_option linter.unusedVariables false

/-!
# PhantomJSHandler: command correlation and lifecycle bookkeeping

A shallow embedding of `src/handler.cpp`.  The handler keeps four hash tables
(`m_browsers`, `m_pendingOpenBrowserRequests`, `m_pendingQueryCallbacks`,
`m_browserSignals`); every entry point of the handler is a function from the
table state to a new state together with the list of externally visible
calls it made, in program order (callback invocations and engine operations).

Modelling decisions:
* `QHash<K, V>` is an association list with unique keys; `operator[]=`
  replaces, `remove` erases, `value` returns the stored value or nothing
  (the null `CefRefPtr`).
* A query callback (`CefMessageRouterBrowserSide::Callback`) is an abstract
  object identity; invoking it is recorded in the trace.
* The JSON text of a request is parsed by Qt; the embedding starts from the
  parsed document (`none` when `QJsonParseError::error` is set).
* Diagnostic output (`qDebug`, `qWarning`, `std::cerr`) is not recorded.
* The CEF message router is an external library.  What it reports back to
  the handler (`OnQueryCanceled` calls while it processes `OnBeforeClose`
  or `CancelPending`) is an input of the corresponding entry point.
* The engine may run the handler's `OnAfterCreated` before
  `CreateBrowserSync` returns and the handler's `OnBeforeClose` before
  `CloseBrowser` returns, or deliver them later as events of their own.  Which
  of the two happens is an input wherever the handler makes these calls (the
  `createBrowser` and `closeWebPage` commands, and `CloseAllBrowsers`).
-/

namespace PhantomJS

/-! ## Qt containers and JSON values -/

/-- A `QHash` keyed by integers (`int32` browser ids or `int64` query ids). -/
abbrev QHash (V : Type) := List (Int × V)

namespace QHash

/-- Lookup `QHash::value(key)` / `QHash::find(key)`: the stored value, if any. -/
def value {V : Type} (h : QHash V) (key : Int) : Option V :=
  match h with
  | [] => none
  | (k, v) :: rest => if k = key then some v else value rest key

/-- Removal `QHash::remove(key)` / `QHash::erase(it)`: drop the entry stored under `key`. -/
def remove {V : Type} (h : QHash V) (key : Int) : QHash V :=
  match h with
  | [] => []
  | (k, v) :: rest => if k = key then remove rest key else (k, v) :: remove rest key

/-- Assignment `hash[key] = v`: insert, replacing any entry already stored under `key`. -/
def insert {V : Type} (h : QHash V) (key : Int) (v : V) : QHash V :=
  (key, v) :: remove h key

/-- Test `QHash::empty()`. -/
def empty {V : Type} (h : QHash V) : Bool := h.isEmpty

end QHash

/-- A `QJsonValue`.  Numbers are IEEE doubles in Qt; the handler only reads
them through `toInt`, which distinguishes whole numbers from the rest, so a
number is either `Whole n` or `Fraction`. -/
inductive QJsonValue where
  | Undefined
  | Null
  | Boolean (b : Bool)
  | Whole (n : Int)
  | Fraction
  | Str (s : String)
  | Array
  | Object
  deriving DecidableEq, Repr

/-- A `QJsonObject`: the members of the top-level object of the request. -/
abbrev QJsonObject := List (String × QJsonValue)

/-- Lookup `QJsonObject::value(key)`: the member, or `Undefined` when it is missing. -/
def QJsonObject.value (o : QJsonObject) (key : String) : QJsonValue :=
  match o with
  | [] => QJsonValue.Undefined
  | (k, v) :: rest => if k = key then v else QJsonObject.value rest key

/-- Conversion `QJsonValue::toString()`: the string, or the empty string for any other type. -/
def QJsonValue.toString : QJsonValue → String
  | QJsonValue.Str s => s
  | _ => ""

/-- Smallest value of a C++ `int` (32 bit). -/
def INT_MIN : Int := -2147483648

/-- Largest value of a C++ `int` (32 bit). -/
def INT_MAX : Int := 2147483647

/-- Conversion `QJsonValue::toInt(defaultValue)`: the number when the value is a double
holding a whole number that fits a 32-bit `int`, the default otherwise. -/
def QJsonValue.toInt (v : QJsonValue) (defaultValue : Int) : Int :=
  match v with
  | QJsonValue.Whole n => if INT_MIN ≤ n ∧ n ≤ INT_MAX then n else defaultValue
  | _ => defaultValue

/-! ## CEF objects -/

/-- A `CefBrowser` handle; `identifier` is `GetIdentifier()`. -/
structure CefBrowser where
  identifier : Int
  deriving DecidableEq, Repr

/-- A `CefFrame`; only `IsMain()` is consulted by the handler. -/
structure CefFrame where
  IsMain : Bool
  deriving DecidableEq, Repr

/-- A `CefMessageRouterBrowserSide::Callback` object (the response sink of one query). -/
structure Callback where
  id : Nat
  deriving DecidableEq, Repr

/-- CEF error code `ERR_ABORTED` (`cef_errorcode_t`). -/
def ERR_ABORTED : Int := -3

/-- Externally visible calls made by the handler, in program order. -/
inductive Effect where
  /-- The call `callback->Success(response)` -/
  | Success (callback : Callback) (response : String)
  /-- The call `callback->Failure(code, message)` -/
  | Failure (callback : Callback) (code : Int) (message : String)
  /-- The call `CefBrowserHost::CreateBrowserSync(..., url, ...)` -/
  | CreateBrowserSync (url : String)
  /-- The call `browser->GetMainFrame()->LoadURL(url)` -/
  | LoadURL (browser : Int) (url : String)
  /-- The call `browser->StopLoad()` -/
  | StopLoad (browser : Int)
  /-- The call `browser->GetHost()->CloseBrowser(force)` -/
  | CloseBrowser (browser : Int) (force : Bool)
  /-- The call `browser->GetMainFrame()->ExecuteJavaScript(script, url, line)` -/
  | ExecuteJavaScript (browser : Int) (script : String) (url : String) (line : Int)
  /-- The call `browser->GetHost()->PrintToPDF(path, settings, cb)`; `callback` is the one captured by `cb` -/
  | PrintToPDF (browser : Int) (path : String) (callback : Callback)
  /-- The call `frame->LoadString(html, url)` -/
  | LoadString (browser : Int) (frame : CefFrame) (html : String) (url : String)
  /-- The call `m_messageRouter->OnBeforeClose(browser)` -/
  | RouterOnBeforeClose (browser : Int)
  /-- The call `CefQuitMessageLoop()` -/
  | QuitMessageLoop
  /-- The call `m_messageRouter->CancelPending(nullptr, nullptr)` -/
  | RouterCancelPending
  /-- The call `CefPostTask(TID_UI, base::Bind(&PhantomJSHandler::CloseAllBrowsers, ...))` -/
  | PostCloseAllBrowsers (force_close : Bool)
  deriving DecidableEq, Repr

/-- The callback an effect invokes, if it is a callback invocation. -/
def Effect.sink : Effect → Option Callback
  | Effect.Success c _ => some c
  | Effect.Failure c _ _ => some c
  | _ => none

/-- Whether the effect is a request to the browser engine. -/
def Effect.isEngineOp : Effect → Bool
  | Effect.Success _ _ => false
  | Effect.Failure _ _ _ => false
  | Effect.RouterOnBeforeClose _ => false
  | Effect.RouterCancelPending => false
  | Effect.PostCloseAllBrowsers _ => false
  | _ => true

/-! ## Handler state -/

/-- The member tables of `PhantomJSHandler`. -/
structure PhantomJSHandler where
  m_browsers : QHash CefBrowser
  m_pendingOpenBrowserRequests : QHash Callback
  m_pendingQueryCallbacks : QHash Callback
  m_browserSignals : QHash Callback
  deriving DecidableEq, Repr

/-- The signal sent to a listener when a main-frame load starts. -/
def onLoadStartedSignal : String := "\x7b\"signal\":\"onLoadStarted\"\x7d"

/-- The signal sent to a listener when a load ends; the argument is
`success` or `fail`. -/
def onLoadFinishedSignal (success : Bool) : String :=
  if success then "\x7b\"signal\":\"onLoadFinished\",\"args\":[\"success\"]\x7d"
  else "\x7b\"signal\":\"onLoadFinished\",\"args\":[\"fail\"]\x7d"

/-- Helper `takeCallback(callbacks, browser)`: remove and return the callback stored
under the browser's identifier; leave the table alone when there is none. -/
def takeCallback (callbacks : QHash Callback) (browser : CefBrowser) :
    Option Callback × QHash Callback :=
  match callbacks.value browser.identifier with
  | some ret => (some ret, callbacks.remove browser.identifier)
  | none => (none, callbacks)

/-- Method `PhantomJSHandler::OnAfterCreated`. -/
def OnAfterCreated (self : PhantomJSHandler) (browser : CefBrowser) : PhantomJSHandler :=
  { self with m_browsers := self.m_browsers.insert browser.identifier browser }

/-- Method `PhantomJSHandler::OnQueryCanceled`. -/
def OnQueryCanceled (self : PhantomJSHandler) (browser : CefBrowser) (query_id : Int) :
    PhantomJSHandler :=
  { self with
    m_pendingOpenBrowserRequests := self.m_pendingOpenBrowserRequests.remove browser.identifier
    m_pendingQueryCallbacks := self.m_pendingQueryCallbacks.remove query_id
    m_browserSignals := self.m_browserSignals.remove browser.identifier }

/-- Method `PhantomJSHandler::handleLoadEnd`. -/
def handleLoadEnd (self : PhantomJSHandler) (browser : CefBrowser) (statusCode : Int)
    (success : Bool) : PhantomJSHandler × List Effect :=
  let taken := takeCallback self.m_pendingOpenBrowserRequests browser
  let self1 := { self with m_pendingOpenBrowserRequests := taken.2 }
  let resolved : List Effect :=
    match taken.1 with
    | some callback =>
      if success then [Effect.Success callback (toString statusCode)]
      else [Effect.Failure callback statusCode "load error"]
    | none => []
  let signalled : List Effect :=
    match self1.m_browserSignals.value browser.identifier with
    | some callback => [Effect.Success callback (onLoadFinishedSignal success)]
    | none => []
  (self1, resolved ++ signalled)

/-- Method `PhantomJSHandler::OnLoadStart`. -/
def OnLoadStart (self : PhantomJSHandler) (browser : CefBrowser) (frame : CefFrame) :
    PhantomJSHandler × List Effect :=
  if !frame.IsMain then (self, [])
  else
    match self.m_browserSignals.value browser.identifier with
    | none => (self, [])
    | some callback => (self, [Effect.Success callback onLoadStartedSignal])

/-- Method `PhantomJSHandler::OnLoadEnd`. -/
def OnLoadEnd (self : PhantomJSHandler) (browser : CefBrowser) (frame : CefFrame)
    (httpStatusCode : Int) : PhantomJSHandler × List Effect :=
  if !frame.IsMain || httpStatusCode < 200 then (self, [])
  else
    let success : Bool := httpStatusCode < 400
    handleLoadEnd self browser httpStatusCode success

/-- The error page built by `OnLoadError`. -/
def loadErrorPage (errorCode : Int) (errorText failedUrl : String) : String :=
  "<html><body bgcolor=\"white\">" ++ "<h2>Failed to load URL " ++ failedUrl ++
    " with error " ++ errorText ++ " (" ++ toString errorCode ++ ").</h2></body></html>"

/-- Method `PhantomJSHandler::OnLoadError`. -/
def OnLoadError (self : PhantomJSHandler) (browser : CefBrowser) (frame : CefFrame)
    (errorCode : Int) (errorText failedUrl : String) : PhantomJSHandler × List Effect :=
  let ended : PhantomJSHandler × List Effect :=
    if frame.IsMain then handleLoadEnd self browser errorCode false else (self, [])
  if errorCode = ERR_ABORTED then ended
  else
    (ended.1, ended.2 ++
      [Effect.LoadString browser.identifier frame
        (loadErrorPage errorCode errorText failedUrl) failedUrl])

/-- Method `PhantomJSHandler::OnBeforeClose`.  The list `canceled` holds the query ids for
which the message router, while it handles `OnBeforeClose(browser)`, calls
back `OnQueryCanceled(browser, frame, query_id)`: its pending queries
associated with the closing browser. -/
def OnBeforeClose (self : PhantomJSHandler) (browser : CefBrowser) (canceled : List Int) :
    PhantomJSHandler × List Effect :=
  let self1 := canceled.foldl (fun h query_id => OnQueryCanceled h browser query_id) self
  let self2 := { self1 with m_browsers := self1.m_browsers.remove browser.identifier }
  if self2.m_browsers.empty then
    (self2, [Effect.RouterOnBeforeClose browser.identifier, Effect.QuitMessageLoop])
  else (self2, [Effect.RouterOnBeforeClose browser.identifier])

/-- The call `browser->GetHost()->CloseBrowser(force_close)`, as made by the
`closeWebPage` command and by each iteration of the `foreach` loop of
`CloseAllBrowsers`; `acc` holds the tables and the calls made so far.  When the engine destroys
the browser before that call returns (`closing browser = some canceled`), the
handler's `OnBeforeClose(browser)` runs inside the call, the message router
reporting the query ids `canceled`; otherwise (`none`) the close is only
requested and `OnBeforeClose` arrives later as an event of its own. -/
def closeOne (force_close : Bool) (closing : CefBrowser → Option (List Int))
    (acc : PhantomJSHandler × List Effect) (browser : CefBrowser) :
    PhantomJSHandler × List Effect :=
  match closing browser with
  | none => (acc.1, acc.2 ++ [Effect.CloseBrowser browser.identifier force_close])
  | some canceled =>
    let r := OnBeforeClose acc.1 browser canceled
    (r.1, acc.2 ++ Effect.CloseBrowser browser.identifier force_close :: r.2)

/-- What the browser engine does inside the calls that `OnQuery` makes.
`CreateBrowserSync` returns the new browser; when `OnAfterCreatedInside` holds
the handler's `OnAfterCreated` has run for it before the call returns,
otherwise that notification arrives later as an event of its own.
`CloseBrowser` is the engine's reaction to a close request (see `closeOne`). -/
structure Engine where
  CreateBrowserSync : String → CefBrowser
  OnAfterCreatedInside : Bool
  CloseBrowser : CefBrowser → Option (List Int)

/-- Method `PhantomJSHandler::OnQuery`.  The argument `request` is the parsed JSON document
(`none` when parsing failed).  The result is the return value (`true`: the
query was handled), the new tables and the calls made. -/
def OnQuery (engine : Engine) (self : PhantomJSHandler) (browser : CefBrowser)
    (frame : CefFrame) (query_id : Int) (request : Option QJsonObject) (persistent : Bool)
    (callback : Callback) : Bool × PhantomJSHandler × List Effect :=
  match request with
  | none => (false, self, [])
  | some json =>
    let type := (json.value "type").toString
    if type = "createBrowser" then
      let subBrowser := engine.CreateBrowserSync "about:blank"
      let created := if engine.OnAfterCreatedInside then OnAfterCreated self subBrowser else self
      (true, created, [Effect.CreateBrowserSync "about:blank",
        Effect.Success callback (toString subBrowser.identifier)])
    else if type = "webPageSignals" then
      let subBrowserId := (json.value "browser").toInt (-1)
      (true, { self with m_browserSignals := self.m_browserSignals.insert subBrowserId callback },
        [])
    else
      let otherQueryId := (json.value "queryId").toInt (-1)
      let it : Option Callback :=
        if type = "returnEvaluateJavaScript" then self.m_pendingQueryCallbacks.value otherQueryId
        else none
      match it with
      | some otherCallback =>
        let retval := (json.value "retval").toString
        let exception := (json.value "exception").toString
        let delivered : Effect :=
          if exception.isEmpty then Effect.Success otherCallback retval
          else Effect.Failure otherCallback 1 exception
        (true,
          { self with m_pendingQueryCallbacks := self.m_pendingQueryCallbacks.remove otherQueryId },
          [delivered, Effect.Success callback ""])
      | none =>
        let subBrowserId := (json.value "browser").toInt (-1)
        match self.m_browsers.value subBrowserId with
        | none => (false, self, [])
        | some subBrowser =>
          -- below, all queries work on a browser
          if type = "openWebPage" then
            let url := (json.value "url").toString
            (true,
              { self with
                m_pendingOpenBrowserRequests :=
                  self.m_pendingOpenBrowserRequests.insert subBrowser.identifier callback },
              [Effect.LoadURL subBrowser.identifier url])
          else if type = "stopWebPage" then
            (true, self, [Effect.StopLoad subBrowser.identifier, Effect.Success callback ""])
          else if type = "closeWebPage" then
            let closed := closeOne true engine.CloseBrowser (self, []) subBrowser
            (true, closed.1, closed.2 ++ [Effect.Success callback ""])
          else if type = "evaluateJavaScript" then
            let script := (json.value "script").toString
            let script := "phantom.internal.handleEvaluateJavaScript(" ++ script ++ ", " ++
              toString query_id ++ ")"
            (true,
              { self with
                m_pendingQueryCallbacks := self.m_pendingQueryCallbacks.insert query_id callback },
              [Effect.ExecuteJavaScript subBrowser.identifier script
                "phantomjs://evaluateJavaScript" 1])
          else if type = "renderPage" then
            let path := (json.value "path").toString
            (true, self, [Effect.PrintToPDF subBrowser.identifier path callback])
          else (false, self, [])

/-- The completion lambda handed to `PrintToPDF` by the `renderPage` branch of `OnQuery`. -/
def pdfPrintCallback (callback : Callback) (path : String) (success : Bool) : List Effect :=
  if success then [Effect.Success callback path]
  else [Effect.Failure callback 1 ("failed to print to path " ++ path)]

/-- The message of the fatal log entry written by `LOG_ASSERT(m_browsers.empty())`. -/
def assertFailedMessage : String := "Assert failed: m_browsers.empty(). "

/-- Method `PhantomJSHandler::CloseAllBrowsers`.  The list `canceled` holds the
queries for which the message router, while it handles
`CancelPending(nullptr, nullptr)`, calls back `OnQueryCanceled(browser, frame,
query_id)`; `onUIThread` is `CefCurrentlyOn(TID_UI)`; `closing` is the engine's
reaction to each `CloseBrowser` call (see `closeOne`).  The loop runs over the
browsers registered when it starts (`foreach` iterates over a copy).  The
result is an error when `LOG_ASSERT(m_browsers.empty())` fails, which is
fatal. -/
def CloseAllBrowsers (self : PhantomJSHandler) (force_close : Bool) (onUIThread : Bool)
    (canceled : List (CefBrowser × Int)) (closing : CefBrowser → Option (List Int)) :
    Except String (PhantomJSHandler × List Effect) :=
  let self1 := canceled.foldl (fun h p => OnQueryCanceled h p.1 p.2) self
  if !onUIThread then
    Except.ok (self1, [Effect.RouterCancelPending, Effect.PostCloseAllBrowsers force_close])
  else
    let r := (self1.m_browsers.map Prod.snd).foldl (closeOne force_close closing)
      (self1, [Effect.RouterCancelPending])
    if r.1.m_browsers.empty then Except.ok r
    else Except.error assertFailedMessage

/-! ## Serialised event processing -/

/-- One invocation of the handler on the UI thread. -/
inductive Event where
  | AfterCreated (browser : CefBrowser)
  | BeforeClose (browser : CefBrowser) (canceled : List Int)
  | LoadError (browser : CefBrowser) (frame : CefFrame) (errorCode : Int)
      (errorText : String) (failedUrl : String)
  | LoadStart (browser : CefBrowser) (frame : CefFrame)
  | LoadEnd (browser : CefBrowser) (frame : CefFrame) (httpStatusCode : Int)
  | Query (browser : CefBrowser) (frame : CefFrame) (query_id : Int)
      (request : Option QJsonObject) (persistent : Bool) (callback : Callback)
  | QueryCanceled (browser : CefBrowser) (query_id : Int)
  deriving DecidableEq, Repr

/-- Run one event through the matching entry point. -/
def dispatch (engine : Engine) (self : PhantomJSHandler) : Event → PhantomJSHandler × List Effect
  | Event.AfterCreated browser => (OnAfterCreated self browser, [])
  | Event.BeforeClose browser canceled => OnBeforeClose self browser canceled
  | Event.LoadError browser frame errorCode errorText failedUrl =>
    OnLoadError self browser frame errorCode errorText failedUrl
  | Event.LoadStart browser frame => OnLoadStart self browser frame
  | Event.LoadEnd browser frame httpStatusCode => OnLoadEnd self browser frame httpStatusCode
  | Event.Query browser frame query_id request persistent callback =>
    (OnQuery engine self browser frame query_id request persistent callback).2
  | Event.QueryCanceled browser query_id => (OnQueryCanceled self browser query_id, [])

/-- Process a sequence of events in order; the result is the final tables and,
for every event, the calls made while it was handled. -/
def run (engine : Engine) (self : PhantomJSHandler) :
    List Event → PhantomJSHandler × List (Event × List Effect)
  | [] => (self, [])
  | ev :: rest =>
    let r := dispatch engine self ev
    let rs := run engine r.1 rest
    (rs.1, (ev, r.2) :: rs.2)

/-! ## Vocabulary of the statements -/

/-- The response sinks currently held by the two pending-call tables. -/
def pendingSinks (self : PhantomJSHandler) : List Callback :=
  self.m_pendingOpenBrowserRequests.map Prod.snd ++ self.m_pendingQueryCallbacks.map Prod.snd

/-- What `handleLoadEnd` sends to the listener bound to instance `i`, if any. -/
def listenerNotification (self : PhantomJSHandler) (i : Int) (success : Bool) : List Effect :=
  match self.m_browserSignals.value i with
  | some callback => [Effect.Success callback (onLoadFinishedSignal success)]
  | none => []

/-- The callback invocations contained in a trace. -/
def deliveries (effects : List Effect) : List Effect :=
  effects.filter (fun e => e.sink.isSome)

/-- The invocations of callback `c` contained in a trace. -/
def deliveriesTo (c : Callback) (effects : List Effect) : List Effect :=
  effects.filter (fun e => decide (e.sink = some c))

/-- The request is a command of the given `type` addressed to instance `i`. -/
def isCommandFor (json : QJsonObject) (type : String) (i : Int) : Prop :=
  (json.value "type").toString = type ∧ (json.value "browser").toInt (-1) = i

instance (json : QJsonObject) (type : String) (i : Int) : Decidable (isCommandFor json type i) := by
  unfold isCommandFor; infer_instance

/-! ## Further vocabulary: resolutions and listener signals -/

/-- How `handleLoadEnd` resolves the navigate sink `c`. -/
def resolution (c : Callback) (statusCode : Int) (success : Bool) : Effect :=
  if success then Effect.Success c (toString statusCode)
  else Effect.Failure c statusCode "load error"

/-- Events that can change the listener binding of instance `X`: the close of
`X`, a `webPageSignals` command for `X`, and the cancellation of a query that
was issued from browser `X`. -/
def affectsListener (X : Int) : Event → Bool
  | Event.BeforeClose browser _ => decide (browser.identifier = X)
  | Event.QueryCanceled browser _ => decide (browser.identifier = X)
  | Event.Query _ _ _ (some json) _ _ => decide (isCommandFor json "webPageSignals" X)
  | _ => false

/-- The signal a main-frame load event for instance `X` owes to the listener
`L` of `X`: `onLoadStarted` for a load start, `onLoadFinished` with `success`
or `fail` for a load end with status at least 200 and for a load error.
Other events owe nothing. -/
def owedSignal (X : Int) (L : Callback) : Event → Option Effect
  | Event.LoadStart browser frame =>
    if browser.identifier = X ∧ frame.IsMain = true then
      some (Effect.Success L onLoadStartedSignal)
    else none
  | Event.LoadEnd browser frame httpStatusCode =>
    if browser.identifier = X ∧ frame.IsMain = true ∧ 200 ≤ httpStatusCode then
      some (Effect.Success L (onLoadFinishedSignal (decide (httpStatusCode < 400))))
    else none
  | Event.LoadError browser frame _ _ _ =>
    if browser.identifier = X ∧ frame.IsMain = true then
      some (Effect.Success L (onLoadFinishedSignal false))
    else none
  | _ => none

/-! ## Concrete inputs of the examples -/

/-- An engine whose `CreateBrowserSync` hands out browser 9, notifying the
handler inside the call, and which only records close requests: every
`OnBeforeClose` arrives later. -/
def exampleEngine : Engine :=
  { CreateBrowserSync := fun _ => ⟨9⟩, OnAfterCreatedInside := true,
    CloseBrowser := fun _ => none }

/-- An engine like `exampleEngine` that destroys a browser before `CloseBrowser`
returns, the message router having no query of that browser to cancel. -/
def inlineEngine : Engine :=
  { CreateBrowserSync := fun _ => ⟨9⟩, OnAfterCreatedInside := true,
    CloseBrowser := fun _ => some [] }

/-- The request `{"type":"openWebPage","browser":i,"url":url}`. -/
def navigateRequest (i : Int) (url : String) : QJsonObject :=
  [("type", QJsonValue.Str "openWebPage"), ("browser", QJsonValue.Whole i),
    ("url", QJsonValue.Str url)]

/-- Instance 7 is registered and a navigate with sink 1 is outstanding for it. -/
def navigating7 : PhantomJSHandler :=
  { m_browsers := [(7, ⟨7⟩)], m_pendingOpenBrowserRequests := [(7, ⟨1⟩)],
    m_pendingQueryCallbacks := [], m_browserSignals := [] }

/-- Instance 7 with an outstanding navigate (sink 1), an outstanding
evaluation (call id 42, sink 3) and a listener (callback 5). -/
def busy7 : PhantomJSHandler :=
  { m_browsers := [(7, ⟨7⟩)], m_pendingOpenBrowserRequests := [(7, ⟨1⟩)],
    m_pendingQueryCallbacks := [(42, ⟨3⟩)], m_browserSignals := [(7, ⟨5⟩)] }

/-- Instances 7 and 8 are registered; navigates are outstanding for both
(sinks 1 and 2). -/
def twoNavigations : PhantomJSHandler :=
  { m_browsers := [(7, ⟨7⟩), (8, ⟨8⟩)], m_pendingOpenBrowserRequests := [(7, ⟨1⟩), (8, ⟨2⟩)],
    m_pendingQueryCallbacks := [], m_browserSignals := [] }

/-- Instance 7 is registered and callback 5 is its listener. -/
def listening7 : PhantomJSHandler :=
  { m_browsers := [(7, ⟨7⟩)], m_pendingOpenBrowserRequests := [],
    m_pendingQueryCallbacks := [], m_browserSignals := [(7, ⟨5⟩)] }

/-- The events of the C4 example: a load start for 7, a navigate for 7, the
cancellation of a query issued from browser 1, a load end for 7 with status
200, and a load start for instance 8. -/
def listenerExampleEvents : List Event :=
  [Event.LoadStart ⟨7⟩ ⟨true⟩,
   Event.Query ⟨1⟩ ⟨true⟩ 43 (some (navigateRequest 7 "http://x")) false ⟨2⟩,
   Event.QueryCanceled ⟨1⟩ 44,
   Event.LoadEnd ⟨7⟩ ⟨true⟩ 200,
   Event.LoadStart ⟨8⟩ ⟨true⟩]

/-- The request `{"type":"evaluateJavaScript","browser":i,"script":script}`. -/
def evaluateRequest (i : Int) (script : String) : QJsonObject :=
  [("type", QJsonValue.Str "evaluateJavaScript"), ("browser", QJsonValue.Whole i),
    ("script", QJsonValue.Str script)]

/-- The request `{"type":"returnEvaluateJavaScript","queryId":q,"retval":v}`. -/
def evalResultRequest (q : Int) (v : String) : QJsonObject :=
  [("type", QJsonValue.Str "returnEvaluateJavaScript"), ("queryId", QJsonValue.Whole q),
    ("retval", QJsonValue.Str v)]

/-- Only instance 7 is registered; nothing is pending. -/
def registered7 : PhantomJSHandler :=
  { m_browsers := [(7, ⟨7⟩)], m_pendingOpenBrowserRequests := [],
    m_pendingQueryCallbacks := [], m_browserSignals := [] }

/-- Instance 7 is registered and an evaluation with call id 42 and sink 3 is
outstanding. -/
def evaluating42 : PhantomJSHandler :=
  { m_browsers := [(7, ⟨7⟩)], m_pendingOpenBrowserRequests := [],
    m_pendingQueryCallbacks := [(42, ⟨3⟩)], m_browserSignals := [] }

/-- The request `{"type":"returnEvaluateJavaScript","queryId":q,"retval":v,"exception":e}`
for an arbitrary JSON value `e`. -/
def evalErrorRequest (q : Int) (v : String) (e : QJsonValue) : QJsonObject :=
  [("type", QJsonValue.Str "returnEvaluateJavaScript"), ("queryId", QJsonValue.Whole q),
    ("retval", QJsonValue.Str v), ("exception", e)]

/-- The request `{"type":type,"browser":i}` of a command that carries only
its target instance. -/
def instanceRequest (type : String) (i : Int) : QJsonObject :=
  [("type", QJsonValue.Str type), ("browser", QJsonValue.Whole i)]

/-- An engine reaction to `CloseBrowser` that only records the request: every
`OnBeforeClose` arrives later. -/
def closesLater : CefBrowser → Option (List Int) := fun _ => none

/-! ## Facts about `QHash` -/

namespace QHash

theorem value_remove_self {V : Type} (h : QHash V) (key : Int) :
    (h.remove key).value key = none := by
  induction h with
  | nil => rfl
  | cons e rest ih =>
    obtain ⟨k, v⟩ := e
    by_cases hk : k = key
    · simp [remove, hk, ih]
    · simp [remove, value, hk, ih]

theorem value_remove_of_ne {V : Type} (h : QHash V) (key other : Int) (hne : other ≠ key) :
    (h.remove key).value other = h.value other := by
  induction h with
  | nil => rfl
  | cons e rest ih =>
    obtain ⟨k, v⟩ := e
    by_cases hk : k = key
    · have hko : ¬ k = other := fun hh => hne (hh ▸ hk)
      simp only [remove, value, if_pos hk, if_neg hko, ih]
    · by_cases hko : k = other
      · simp only [remove, value, if_neg hk, if_pos hko]
      · simp only [remove, value, if_neg hk, if_neg hko, ih]

theorem remove_of_value_none {V : Type} (h : QHash V) (key : Int) (hnone : h.value key = none) :
    h.remove key = h := by
  induction h with
  | nil => rfl
  | cons e rest ih =>
    obtain ⟨k, v⟩ := e
    by_cases hk : k = key
    · simp [value, hk] at hnone
    · simp [value, hk] at hnone
      simp [remove, hk, ih hnone]

theorem remove_remove {V : Type} (h : QHash V) (key : Int) :
    (h.remove key).remove key = h.remove key :=
  remove_of_value_none _ _ (value_remove_self h key)

theorem value_insert_self {V : Type} (h : QHash V) (key : Int) (v : V) :
    (h.insert key v).value key = some v := by
  simp [insert, value]

theorem value_insert_of_ne {V : Type} (h : QHash V) (key other : Int) (v : V)
    (hne : other ≠ key) : (h.insert key v).value other = h.value other := by
  have hne2 : key ≠ other := fun hh => hne hh.symm
  simp [insert, value, hne2, value_remove_of_ne h key other hne]

theorem mem_of_value {V : Type} (h : QHash V) (key : Int) (v : V) (hv : h.value key = some v) :
    v ∈ h.map Prod.snd := by
  induction h with
  | nil => simp [value] at hv
  | cons e rest ih =>
    obtain ⟨k, w⟩ := e
    by_cases hk : k = key
    · simp [value, hk] at hv
      simp [hv]
    · simp [value, hk] at hv
      simp [ih hv]

end QHash

/-! ## The branches of `OnQuery` -/

theorem OnQuery_openWebPage (engine : Engine) (s : PhantomJSHandler) (browser : CefBrowser)
    (frame : CefFrame) (query_id : Int) (json : QJsonObject) (persistent : Bool)
    (callback : Callback) (i : Int) (subBrowser : CefBrowser)
    (hcmd : isCommandFor json "openWebPage" i)
    (hreg : s.m_browsers.value i = some subBrowser) :
    OnQuery engine s browser frame query_id (some json) persistent callback =
      (true,
        { s with
          m_pendingOpenBrowserRequests :=
            s.m_pendingOpenBrowserRequests.insert subBrowser.identifier callback },
        [Effect.LoadURL subBrowser.identifier (json.value "url").toString]) := by
  obtain ⟨htype, hid⟩ := hcmd
  simp [OnQuery, htype, hid, hreg]

theorem OnQuery_unknown_browser (engine : Engine) (s : PhantomJSHandler) (browser : CefBrowser)
    (frame : CefFrame) (query_id : Int) (json : QJsonObject) (persistent : Bool)
    (callback : Callback)
    (h1 : (json.value "type").toString ≠ "createBrowser")
    (h2 : (json.value "type").toString ≠ "webPageSignals")
    (h3 : (json.value "type").toString ≠ "returnEvaluateJavaScript")
    (hreg : s.m_browsers.value ((json.value "browser").toInt (-1)) = none) :
    OnQuery engine s browser frame query_id (some json) persistent callback = (false, s, []) := by
  simp [OnQuery, h1, h2, h3, hreg]

/-! ## The two cases of `handleLoadEnd` -/

theorem resolution_sink (c : Callback) (statusCode : Int) (success : Bool) :
    (resolution c statusCode success).sink = some c := by
  cases success <;> rfl

theorem handleLoadEnd_pending (s : PhantomJSHandler) (browser : CefBrowser) (statusCode : Int)
    (success : Bool) (c : Callback)
    (hpend : s.m_pendingOpenBrowserRequests.value browser.identifier = some c) :
    handleLoadEnd s browser statusCode success =
      ({ s with
          m_pendingOpenBrowserRequests :=
            s.m_pendingOpenBrowserRequests.remove browser.identifier },
        resolution c statusCode success ::
          listenerNotification s browser.identifier success) := by
  cases success <;>
    simp [handleLoadEnd, takeCallback, hpend, resolution, listenerNotification]

theorem handleLoadEnd_absent (s : PhantomJSHandler) (browser : CefBrowser) (statusCode : Int)
    (success : Bool)
    (hpend : s.m_pendingOpenBrowserRequests.value browser.identifier = none) :
    handleLoadEnd s browser statusCode success =
      (s, listenerNotification s browser.identifier success) := by
  simp [handleLoadEnd, takeCallback, hpend, listenerNotification]

theorem OnLoadEnd_main (s : PhantomJSHandler) (browser : CefBrowser) (httpStatusCode : Int)
    (hstatus : 200 ≤ httpStatusCode) :
    OnLoadEnd s browser ⟨true⟩ httpStatusCode =
      handleLoadEnd s browser httpStatusCode (decide (httpStatusCode < 400)) := by
  have h : ¬ httpStatusCode < 200 := not_lt.mpr hstatus
  simp [OnLoadEnd, h]

theorem listenerNotification_sink (s : PhantomJSHandler) (i : Int) (success : Bool)
    (e : Effect) (he : e ∈ listenerNotification s i success) :
    e.sink = s.m_browserSignals.value i := by
  unfold listenerNotification at he
  cases hv : s.m_browserSignals.value i with
  | none => simp [hv] at he
  | some L =>
    simp [hv] at he
    subst he
    rfl

theorem listenerNotification_not_pending (s : PhantomJSHandler) (i : Int) (success : Bool)
    (hL : ∀ L, s.m_browserSignals.value i = some L → L ∉ pendingSinks s)
    (e : Effect) (he : e ∈ listenerNotification s i success)
    (c : Callback) (hc : c ∈ pendingSinks s) : e.sink ≠ some c := by
  intro hsink
  rw [listenerNotification_sink s i success e he] at hsink
  exact hL c hsink hc

theorem mem_pendingSinks_of_open (s : PhantomJSHandler) (i : Int) (c : Callback)
    (hpend : s.m_pendingOpenBrowserRequests.value i = some c) : c ∈ pendingSinks s := by
  unfold pendingSinks
  exact List.mem_append_left _ (QHash.mem_of_value _ _ _ hpend)

theorem deliveriesTo_listenerNotification (s : PhantomJSHandler) (i : Int) (success : Bool)
    (c : Callback) (hc : c ∈ pendingSinks s)
    (hL : ∀ L, s.m_browserSignals.value i = some L → L ∉ pendingSinks s) :
    deliveriesTo c (listenerNotification s i success) = [] := by
  unfold deliveriesTo
  rw [List.filter_eq_nil_iff]
  intro e he
  simpa using listenerNotification_not_pending s i success hL e he c hc

/-! ## Cancellations reported while a browser closes -/

theorem canceled_fold_browsers (browser : CefBrowser) (canceled : List Int) (s : PhantomJSHandler) :
    (canceled.foldl (fun h query_id => OnQueryCanceled h browser query_id) s).m_browsers =
      s.m_browsers := by
  induction canceled generalizing s with
  | nil => rfl
  | cons q rest ih => simp only [List.foldl_cons, ih]; rfl

theorem canceled_fold_open (browser : CefBrowser) (canceled : List Int) (s : PhantomJSHandler) :
    (canceled.foldl (fun h query_id => OnQueryCanceled h browser query_id)
      s).m_pendingOpenBrowserRequests =
      if canceled = [] then s.m_pendingOpenBrowserRequests
      else s.m_pendingOpenBrowserRequests.remove browser.identifier := by
  induction canceled generalizing s with
  | nil => rfl
  | cons q rest ih =>
    simp only [List.foldl_cons, ih]
    by_cases hrest : rest = []
    · simp [hrest, OnQueryCanceled]
    · simp [hrest, OnQueryCanceled, QHash.remove_remove]

theorem canceled_fold_signals (browser : CefBrowser) (canceled : List Int) (s : PhantomJSHandler) :
    (canceled.foldl (fun h query_id => OnQueryCanceled h browser query_id)
      s).m_browserSignals =
      if canceled = [] then s.m_browserSignals
      else s.m_browserSignals.remove browser.identifier := by
  induction canceled generalizing s with
  | nil => rfl
  | cons q rest ih =>
    simp only [List.foldl_cons, ih]
    by_cases hrest : rest = []
    · simp [hrest, OnQueryCanceled]
    · simp [hrest, OnQueryCanceled, QHash.remove_remove]

theorem OnBeforeClose_open (s : PhantomJSHandler) (browser : CefBrowser) (canceled : List Int) :
    (OnBeforeClose s browser canceled).1.m_pendingOpenBrowserRequests =
      if canceled = [] then s.m_pendingOpenBrowserRequests
      else s.m_pendingOpenBrowserRequests.remove browser.identifier := by
  unfold OnBeforeClose
  simp only []
  split <;> exact canceled_fold_open browser canceled s

theorem OnBeforeClose_signals (s : PhantomJSHandler) (browser : CefBrowser) (canceled : List Int) :
    (OnBeforeClose s browser canceled).1.m_browserSignals =
      if canceled = [] then s.m_browserSignals
      else s.m_browserSignals.remove browser.identifier := by
  unfold OnBeforeClose
  simp only []
  split <;> exact canceled_fold_signals browser canceled s

theorem OnBeforeClose_deliveries (s : PhantomJSHandler) (browser : CefBrowser)
    (canceled : List Int) : deliveries (OnBeforeClose s browser canceled).2 = [] := by
  unfold OnBeforeClose
  simp only []
  split <;> rfl

/-! ## Events and the listener bindings -/

theorem handleLoadEnd_signals (s : PhantomJSHandler) (browser : CefBrowser) (statusCode : Int)
    (success : Bool) :
    (handleLoadEnd s browser statusCode success).1.m_browserSignals = s.m_browserSignals := by
  simp [handleLoadEnd]

theorem handleLoadEnd_notifies (s : PhantomJSHandler) (browser : CefBrowser) (statusCode : Int)
    (success : Bool) (L : Callback)
    (hL : s.m_browserSignals.value browser.identifier = some L) :
    Effect.Success L (onLoadFinishedSignal success) ∈
      (handleLoadEnd s browser statusCode success).2 := by
  simp [handleLoadEnd, hL]

theorem OnBeforeClose_router (s : PhantomJSHandler) (browser : CefBrowser)
    (canceled : List Int) :
    Effect.RouterOnBeforeClose browser.identifier ∈ (OnBeforeClose s browser canceled).2 := by
  unfold OnBeforeClose
  simp only []
  split <;> simp

theorem closeOne_keeps_listener (force_close : Bool) (closing : CefBrowser → Option (List Int))
    (s : PhantomJSHandler) (subBrowser : CefBrowser) (X : Int) (L : Callback)
    (hL : s.m_browserSignals.value X = some L)
    (hno : Effect.RouterOnBeforeClose X ∉ (closeOne force_close closing (s, []) subBrowser).2) :
    (closeOne force_close closing (s, []) subBrowser).1.m_browserSignals.value X = some L := by
  cases hc : closing subBrowser with
  | none => simpa [closeOne, hc] using hL
  | some canceled =>
    have hne : X ≠ subBrowser.identifier := by
      intro h
      apply hno
      simp only [closeOne, hc, List.nil_append]
      exact List.mem_cons_of_mem _ (h ▸ OnBeforeClose_router s subBrowser canceled)
    simp only [closeOne, hc, OnBeforeClose_signals]
    by_cases hcan : canceled = []
    · simpa [hcan] using hL
    · simp only [if_neg hcan]
      rw [QHash.value_remove_of_ne _ _ _ hne]
      exact hL

theorem OnQuery_keeps_listener (engine : Engine) (s : PhantomJSHandler) (browser : CefBrowser)
    (frame : CefFrame) (query_id : Int) (json : QJsonObject) (persistent : Bool)
    (callback : Callback) (X : Int) (L : Callback)
    (hL : s.m_browserSignals.value X = some L)
    (hsub : ¬ isCommandFor json "webPageSignals" X)
    (hno : Effect.RouterOnBeforeClose X ∉
      (OnQuery engine s browser frame query_id (some json) persistent callback).2.2) :
    (OnQuery engine s browser frame query_id (some json) persistent
      callback).2.1.m_browserSignals.value X = some L := by
  by_cases h1 : (json.value "type").toString = "createBrowser"
  · cases hin : engine.OnAfterCreatedInside <;> simpa [OnQuery, h1, hin, OnAfterCreated] using hL
  · by_cases h2 : (json.value "type").toString = "webPageSignals"
    · have hne : X ≠ (json.value "browser").toInt (-1) := fun h => hsub ⟨h2, h.symm⟩
      simp only [OnQuery, if_neg h1, if_pos h2]
      rw [QHash.value_insert_of_ne _ _ _ _ hne]
      exact hL
    · cases hit : (if (json.value "type").toString = "returnEvaluateJavaScript"
          then s.m_pendingQueryCallbacks.value ((json.value "queryId").toInt (-1))
          else none) with
      | some otherCallback =>
        simp only [OnQuery, if_neg h1, if_neg h2, hit]
        exact hL
      | none =>
        cases hreg : s.m_browsers.value ((json.value "browser").toInt (-1)) with
        | none =>
          simp only [OnQuery, if_neg h1, if_neg h2, hit, hreg]
          exact hL
        | some subBrowser =>
          by_cases h5 : (json.value "type").toString = "closeWebPage"
          · have h3 : ¬ (json.value "type").toString = "openWebPage" := by rw [h5]; decide
            have h4 : ¬ (json.value "type").toString = "stopWebPage" := by rw [h5]; decide
            simp only [OnQuery, if_neg h1, if_neg h2, hit, hreg, if_neg h3, if_neg h4,
              if_pos h5] at hno ⊢
            apply closeOne_keeps_listener true engine.CloseBrowser s subBrowser X L hL
            intro hmem
            exact hno (List.mem_append_left _ hmem)
          · simp only [OnQuery, if_neg h1, if_neg h2, hit, hreg, if_neg h5]
            split_ifs <;> exact hL

theorem dispatch_keeps_listener (engine : Engine) (s : PhantomJSHandler) (X : Int)
    (L : Callback) (ev : Event)
    (hL : s.m_browserSignals.value X = some L)
    (hev : affectsListener X ev = false)
    (hno : Effect.RouterOnBeforeClose X ∉ (dispatch engine s ev).2) :
    (dispatch engine s ev).1.m_browserSignals.value X = some L := by
  cases ev with
  | AfterCreated browser => exact hL
  | BeforeClose browser canceled =>
    have hne : X ≠ browser.identifier := by
      intro h
      simp [affectsListener, h] at hev
    simp only [dispatch]
    rw [OnBeforeClose_signals]
    by_cases hc : canceled = []
    · simpa [hc] using hL
    · simp only [if_neg hc]
      rw [QHash.value_remove_of_ne _ _ _ hne]
      exact hL
  | LoadError browser frame errorCode errorText failedUrl =>
    simp only [dispatch, OnLoadError]
    split_ifs <;> simp [handleLoadEnd_signals, hL]
  | LoadStart browser frame =>
    simp only [dispatch, OnLoadStart]
    split_ifs
    · exact hL
    · split <;> exact hL
  | LoadEnd browser frame httpStatusCode =>
    simp only [dispatch, OnLoadEnd]
    split_ifs
    · exact hL
    · rw [handleLoadEnd_signals]
      exact hL
  | Query browser frame query_id request persistent callback =>
    cases request with
    | none => exact hL
    | some json =>
      have hsub : ¬ isCommandFor json "webPageSignals" X := by
        simpa [affectsListener] using hev
      exact OnQuery_keeps_listener engine s browser frame query_id json persistent callback X L
        hL hsub hno
  | QueryCanceled browser query_id =>
    have hne : X ≠ browser.identifier := by
      intro h
      simp [affectsListener, h] at hev
    simp only [dispatch, OnQueryCanceled]
    rw [QHash.value_remove_of_ne _ _ _ hne]
    exact hL

theorem dispatch_delivers_signal (engine : Engine) (s : PhantomJSHandler) (X : Int)
    (L : Callback) (ev : Event) (e : Effect)
    (hL : s.m_browserSignals.value X = some L)
    (hsig : owedSignal X L ev = some e) :
    e ∈ (dispatch engine s ev).2 := by
  cases ev with
  | AfterCreated browser => simp [owedSignal] at hsig
  | BeforeClose browser canceled => simp [owedSignal] at hsig
  | Query browser frame query_id request persistent callback => simp [owedSignal] at hsig
  | QueryCanceled browser query_id => simp [owedSignal] at hsig
  | LoadStart browser frame =>
    simp only [owedSignal] at hsig
    split_ifs at hsig with h
    obtain ⟨hb, hf⟩ := h
    simp only [Option.some.injEq] at hsig
    subst hsig
    simp [dispatch, OnLoadStart, hf, hb, hL]
  | LoadEnd browser frame httpStatusCode =>
    simp only [owedSignal] at hsig
    split_ifs at hsig with h
    obtain ⟨hb, hf, hs⟩ := h
    simp only [Option.some.injEq] at hsig
    subst hsig
    have hs2 : ¬ httpStatusCode < 200 := not_lt.mpr hs
    simp only [dispatch, OnLoadEnd, hf, hs2]
    exact handleLoadEnd_notifies s browser httpStatusCode _ L (hb ▸ hL)
  | LoadError browser frame errorCode errorText failedUrl =>
    simp only [owedSignal] at hsig
    split_ifs at hsig with h
    obtain ⟨hb, hf⟩ := h
    simp only [Option.some.injEq] at hsig
    subst hsig
    have hmem := handleLoadEnd_notifies s browser errorCode false L (hb ▸ hL)
    simp only [dispatch, OnLoadError, hf]
    split_ifs
    · exact hmem
    · exact List.mem_append_left _ hmem

/-! ## The result-delivery branch of `OnQuery` -/

theorem isEmpty_eq_false (t : String) (h : t ≠ "") : t.isEmpty = false := by
  cases hb : t.isEmpty with
  | false => rfl
  | true => exact absurd ((String.isEmpty_iff t).mp hb) h

theorem OnQuery_returnEvaluateJavaScript (engine : Engine) (s : PhantomJSHandler)
    (browser : CefBrowser) (frame : CefFrame) (query_id : Int) (json : QJsonObject)
    (persistent : Bool) (callback otherCallback : Callback)
    (htype : (json.value "type").toString = "returnEvaluateJavaScript")
    (hq : s.m_pendingQueryCallbacks.value ((json.value "queryId").toInt (-1))
      = some otherCallback) :
    OnQuery engine s browser frame query_id (some json) persistent callback =
      (true,
        { s with
          m_pendingQueryCallbacks :=
            s.m_pendingQueryCallbacks.remove ((json.value "queryId").toInt (-1)) },
        [if (json.value "exception").toString.isEmpty
            then Effect.Success otherCallback (json.value "retval").toString
            else Effect.Failure otherCallback 1 (json.value "exception").toString,
          Effect.Success callback ""]) := by
  simp [OnQuery, htype, hq]

theorem OnQuery_returnEvaluateJavaScript_absent (engine : Engine) (s : PhantomJSHandler)
    (browser : CefBrowser) (frame : CefFrame) (query_id : Int) (json : QJsonObject)
    (persistent : Bool) (callback : Callback)
    (htype : (json.value "type").toString = "returnEvaluateJavaScript")
    (hq : s.m_pendingQueryCallbacks.value ((json.value "queryId").toInt (-1)) = none) :
    OnQuery engine s browser frame query_id (some json) persistent callback = (false, s, []) := by
  cases hreg : s.m_browsers.value ((json.value "browser").toInt (-1)) with
  | none => simp [OnQuery, htype, hq, hreg]
  | some subBrowser => simp [OnQuery, htype, hq, hreg]

theorem OnQuery_evaluateJavaScript (engine : Engine) (s : PhantomJSHandler) (browser : CefBrowser)
    (frame : CefFrame) (query_id : Int) (json : QJsonObject) (persistent : Bool)
    (callback : Callback) (i : Int) (subBrowser : CefBrowser)
    (hcmd : isCommandFor json "evaluateJavaScript" i)
    (hreg : s.m_browsers.value i = some subBrowser) :
    OnQuery engine s browser frame query_id (some json) persistent callback =
      (true,
        { s with
          m_pendingQueryCallbacks := s.m_pendingQueryCallbacks.insert query_id callback },
        [Effect.ExecuteJavaScript subBrowser.identifier
          ("phantom.internal.handleEvaluateJavaScript(" ++ (json.value "script").toString ++ ", "
            ++ toString query_id ++ ")")
          "phantomjs://evaluateJavaScript" 1]) := by
  obtain ⟨htype, hid⟩ := hcmd
  simp [OnQuery, htype, hid, hreg]

/-! ## C1: a second navigate on the same instance -/

/-- C1, as stated, fails: with instance 7 registered and a navigate with sink 1
outstanding, a second navigate for 7 with sink 2 is not rejected (`OnQuery`
returns `true`) and afterwards the pending-navigation entry for 7 holds sink 2,
not sink 1. -/
theorem C1_second_navigate_not_rejected :
    navigating7.m_browsers.value 7 = some ⟨7⟩ ∧
    navigating7.m_pendingOpenBrowserRequests.value 7 = some ⟨1⟩ ∧
    ¬ ((OnQuery exampleEngine navigating7 ⟨1⟩ ⟨true⟩ 43
          (some (navigateRequest 7 "http://y")) false ⟨2⟩).1 = false ∧
       (OnQuery exampleEngine navigating7 ⟨1⟩ ⟨true⟩ 43
          (some (navigateRequest 7 "http://y")) false ⟨2⟩).2.1.m_pendingOpenBrowserRequests.value 7
          = some ⟨1⟩) := by
  decide

/-- C1, amended: when instance `i` is registered and a navigate with sink `c1`
is outstanding for `i`, a second navigate for `i` with sink `c2` is accepted
(`OnQuery` returns `true`), the only call made is the engine's `LoadURL` (so
neither `c1` nor `c2` is invoked), the pending-navigation entry for `i` holds
`c2` afterwards, and no other table changes. -/
theorem C1_second_navigate_replaces (engine : Engine) (s : PhantomJSHandler)
    (browser : CefBrowser) (frame : CefFrame) (query_id : Int) (json : QJsonObject)
    (persistent : Bool) (i : Int) (c1 c2 : Callback)
    (hcmd : isCommandFor json "openWebPage" i)
    (hreg : s.m_browsers.value i = some ⟨i⟩)
    (hpend : s.m_pendingOpenBrowserRequests.value i = some c1) :
    (OnQuery engine s browser frame query_id (some json) persistent c2).1 = true ∧
    (OnQuery engine s browser frame query_id (some json) persistent c2).2.2 =
      [Effect.LoadURL i (json.value "url").toString] ∧
    (OnQuery engine s browser frame query_id (some json) persistent
      c2).2.1.m_pendingOpenBrowserRequests.value i = some c2 ∧
    (OnQuery engine s browser frame query_id (some json) persistent c2).2.1 =
      { s with m_pendingOpenBrowserRequests := s.m_pendingOpenBrowserRequests.insert i c2 } := by
  rw [OnQuery_openWebPage engine s browser frame query_id json persistent c2 i ⟨i⟩ hcmd hreg]
  exact ⟨rfl, rfl, QHash.value_insert_self _ _ _, rfl⟩

/-- C1 amended, at a concrete input: instance 7, outstanding sink 1, second sink 2. -/
theorem C1_second_navigate_replaces_witness :
    (OnQuery exampleEngine navigating7 ⟨1⟩ ⟨true⟩ 43
      (some (navigateRequest 7 "http://y")) false ⟨2⟩).1 = true ∧
    (OnQuery exampleEngine navigating7 ⟨1⟩ ⟨true⟩ 43
      (some (navigateRequest 7 "http://y")) false ⟨2⟩).2.2 =
      [Effect.LoadURL 7 (QJsonObject.value (navigateRequest 7 "http://y") "url").toString] ∧
    (OnQuery exampleEngine navigating7 ⟨1⟩ ⟨true⟩ 43
      (some (navigateRequest 7 "http://y")) false
      ⟨2⟩).2.1.m_pendingOpenBrowserRequests.value 7 = some ⟨2⟩ ∧
    (OnQuery exampleEngine navigating7 ⟨1⟩ ⟨true⟩ 43
      (some (navigateRequest 7 "http://y")) false ⟨2⟩).2.1 =
      { navigating7 with
        m_pendingOpenBrowserRequests := navigating7.m_pendingOpenBrowserRequests.insert 7 ⟨2⟩ } :=
  C1_second_navigate_replaces exampleEngine navigating7 ⟨1⟩ ⟨true⟩ 43
    (navigateRequest 7 "http://y") false 7 ⟨1⟩ ⟨2⟩ (by decide) (by decide) (by decide)

/-! ## C2: a duplicated load-finished event -/

/-- C2: when a navigate with sink `c` is outstanding for instance `i` (and the
listener bound to `i`, if any, is not itself a pending-call sink), handling
the same main-frame load-finished event with status at least 200 twice in
succession invokes `c` exactly once: the first handling removes the entry for
`i` from the pending-navigation table, and the second invokes neither `c`
nor any other pending-call sink. -/
theorem C2_duplicate_load_finished_resolves_once (s : PhantomJSHandler) (i : Int)
    (c : Callback) (status : Int)
    (hstatus : 200 ≤ status)
    (hpend : s.m_pendingOpenBrowserRequests.value i = some c)
    (hL : ∀ L, s.m_browserSignals.value i = some L → L ∉ pendingSinks s) :
    (OnLoadEnd s ⟨i⟩ ⟨true⟩ status).1.m_pendingOpenBrowserRequests.value i = none ∧
    (deliveriesTo c ((OnLoadEnd s ⟨i⟩ ⟨true⟩ status).2 ++
      (OnLoadEnd (OnLoadEnd s ⟨i⟩ ⟨true⟩ status).1 ⟨i⟩ ⟨true⟩ status).2)).length = 1 ∧
    (∀ e ∈ (OnLoadEnd (OnLoadEnd s ⟨i⟩ ⟨true⟩ status).1 ⟨i⟩ ⟨true⟩ status).2,
      ∀ c2 ∈ pendingSinks s, e.sink ≠ some c2) := by
  have hc : c ∈ pendingSinks s := mem_pendingSinks_of_open s i c hpend
  have h1 : OnLoadEnd s ⟨i⟩ ⟨true⟩ status =
      ({ s with m_pendingOpenBrowserRequests := s.m_pendingOpenBrowserRequests.remove i },
        resolution c status (decide (status < 400)) ::
          listenerNotification s i (decide (status < 400))) := by
    rw [OnLoadEnd_main s ⟨i⟩ status hstatus]
    exact handleLoadEnd_pending s ⟨i⟩ status _ c hpend
  have h2 : OnLoadEnd
      { s with m_pendingOpenBrowserRequests := s.m_pendingOpenBrowserRequests.remove i }
      ⟨i⟩ ⟨true⟩ status =
      ({ s with m_pendingOpenBrowserRequests := s.m_pendingOpenBrowserRequests.remove i },
        listenerNotification s i (decide (status < 400))) := by
    rw [OnLoadEnd_main _ ⟨i⟩ status hstatus]
    exact handleLoadEnd_absent _ ⟨i⟩ status _ (QHash.value_remove_self _ _)
  rw [h1]
  simp only []
  rw [h2]
  refine ⟨QHash.value_remove_self _ _, ?_, ?_⟩
  · have hres : deliveriesTo c [resolution c status (decide (status < 400))] =
        [resolution c status (decide (status < 400))] := by
      simp [deliveriesTo, resolution_sink]
    have hsplit : deliveriesTo c
        ((resolution c status (decide (status < 400)) ::
            listenerNotification s i (decide (status < 400))) ++
          listenerNotification s i (decide (status < 400))) =
        deliveriesTo c [resolution c status (decide (status < 400))] ++
          (deliveriesTo c (listenerNotification s i (decide (status < 400))) ++
           deliveriesTo c (listenerNotification s i (decide (status < 400)))) := by
      simp [deliveriesTo, List.filter_append, List.filter_cons, resolution_sink]
    rw [hsplit, hres, deliveriesTo_listenerNotification s i _ c hc hL]
    rfl
  · intro e he c2 hc2
    exact listenerNotification_not_pending s i _ hL e he c2 hc2

/-- C2 at a concrete input: instance 7, sink 1, listener 5, status 200 twice. -/
theorem C2_duplicate_load_finished_resolves_once_witness :
    (OnLoadEnd busy7 ⟨7⟩ ⟨true⟩ 200).1.m_pendingOpenBrowserRequests.value 7 = none ∧
    (deliveriesTo ⟨1⟩ ((OnLoadEnd busy7 ⟨7⟩ ⟨true⟩ 200).2 ++
      (OnLoadEnd (OnLoadEnd busy7 ⟨7⟩ ⟨true⟩ 200).1 ⟨7⟩ ⟨true⟩ 200).2)).length = 1 ∧
    (∀ e ∈ (OnLoadEnd (OnLoadEnd busy7 ⟨7⟩ ⟨true⟩ 200).1 ⟨7⟩ ⟨true⟩ 200).2,
      ∀ c2 ∈ pendingSinks busy7, e.sink ≠ some c2) :=
  C2_duplicate_load_finished_resolves_once busy7 7 ⟨1⟩ 200 (by decide) (by decide)
    (by
      intro L hL
      have h5 : L = ⟨5⟩ := by
        have : busy7.m_browserSignals.value 7 = some ⟨5⟩ := by decide
        rw [this] at hL
        exact (Option.some.inj hL).symm
      subst h5
      decide)

/-! ## C3: closing an instance while navigations are outstanding -/

/-- C3, as stated, fails: with navigates outstanding for instances 7 and 8,
handling the close of instance 7 when the message router has no pending query
issued from browser 7 (the navigate was issued from another browser) leaves
the pending-navigation entry keyed by 7 in place, and invokes no sink. -/
theorem C3_close_keeps_pending_navigation :
    twoNavigations.m_pendingOpenBrowserRequests.value 7 = some ⟨1⟩ ∧
    twoNavigations.m_pendingOpenBrowserRequests.value 8 = some ⟨2⟩ ∧
    (OnBeforeClose twoNavigations ⟨7⟩ []).1.m_pendingOpenBrowserRequests.value 7 = some ⟨1⟩ ∧
    ¬ ((OnBeforeClose twoNavigations ⟨7⟩ []).1.m_pendingOpenBrowserRequests.value 7 = none) ∧
    deliveries (OnBeforeClose twoNavigations ⟨7⟩ []).2 = [] := by
  decide

/-- C3, amended: with navigates outstanding for two distinct instances `A` and
`B`, handling the instance-closed event for `A` leaves the pending-navigation
entry keyed by `B` unchanged and invokes no sink; the entry keyed by `A` is
removed whenever the message router reports at least one pending query of
browser `A` as cancelled. -/
theorem C3_close_leaves_other_instance (s : PhantomJSHandler) (A B : Int) (cA cB : Callback)
    (canceled : List Int)
    (hAB : A ≠ B)
    (hA : s.m_pendingOpenBrowserRequests.value A = some cA)
    (hB : s.m_pendingOpenBrowserRequests.value B = some cB) :
    (OnBeforeClose s ⟨A⟩ canceled).1.m_pendingOpenBrowserRequests.value B = some cB ∧
    deliveries (OnBeforeClose s ⟨A⟩ canceled).2 = [] ∧
    (canceled ≠ [] →
      (OnBeforeClose s ⟨A⟩ canceled).1.m_pendingOpenBrowserRequests.value A = none) := by
  refine ⟨?_, OnBeforeClose_deliveries s ⟨A⟩ canceled, ?_⟩
  · rw [OnBeforeClose_open]
    by_cases hc : canceled = []
    · simpa [hc] using hB
    · simp only [if_neg hc]
      rw [QHash.value_remove_of_ne _ A B (fun h => hAB h.symm)]
      exact hB
  · intro hc
    rw [OnBeforeClose_open]
    simp only [if_neg hc]
    exact QHash.value_remove_self _ _

/-- C3 amended, at a concrete input: instance 7 closes while the router
cancels its query 43; instance 8 keeps its entry. -/
theorem C3_close_leaves_other_instance_witness :
    (OnBeforeClose twoNavigations ⟨7⟩ [43]).1.m_pendingOpenBrowserRequests.value 8 = some ⟨2⟩ ∧
    deliveries (OnBeforeClose twoNavigations ⟨7⟩ [43]).2 = [] ∧
    (([43] : List Int) ≠ [] →
      (OnBeforeClose twoNavigations ⟨7⟩ [43]).1.m_pendingOpenBrowserRequests.value 7 = none) :=
  C3_close_leaves_other_instance twoNavigations 7 8 ⟨1⟩ ⟨2⟩ [43] (by decide) (by decide)
    (by decide)

/-! ## C4: persistence of a listener binding -/

theorem run_events (engine : Engine) (evs : List Event) (s : PhantomJSHandler) :
    (run engine s evs).2.map Prod.fst = evs := by
  induction evs generalizing s with
  | nil => rfl
  | cons ev rest ih => simp [run, ih]

/-- C4, as stated, fails in two ways.  With callback 5 bound as the listener of
instance 7: (a) the cancellation of a query issued from browser 7, which is
neither the close of 7 nor a subscribeSignals for 7, removes the binding;
(b) a main-frame load-finished event for 7 with status 0 delivers nothing to
the listener. -/
theorem C4_listener_dropped_by_cancellation :
    listening7.m_browserSignals.value 7 = some ⟨5⟩ ∧
    (run exampleEngine listening7 [Event.QueryCanceled ⟨7⟩ 43]).1.m_browserSignals.value 7
      = none ∧
    (run exampleEngine listening7 [Event.LoadEnd ⟨7⟩ ⟨true⟩ 0]).2
      = [(Event.LoadEnd ⟨7⟩ ⟨true⟩ 0, [])] := by
  decide

/-- C4, amended: when `L` is the listener bound to instance `X`, and a sequence
of handler events contains neither the close of `X` (no instance-closed event
for `X`, and `OnBeforeClose` is not run for `X` inside a `CloseBrowser` call
either), nor a subscribeSignals command for `X`, nor the cancellation of a
query issued from browser `X`, then `L` is still the binding for `X` after the
sequence, every event of the sequence was handled, and every main-frame
load-start event for `X`, every main-frame load-finished event for `X` with
status at least 200 and every main-frame load-error event for `X` in the
sequence delivered its signal to `L` while it was handled. -/
theorem C4_listener_persists (engine : Engine) (s : PhantomJSHandler) (X : Int) (L : Callback)
    (evs : List Event)
    (hL : s.m_browserSignals.value X = some L)
    (hev : ∀ ev ∈ evs, affectsListener X ev = false)
    (hclose : ∀ p ∈ (run engine s evs).2, Effect.RouterOnBeforeClose X ∉ p.2) :
    (run engine s evs).1.m_browserSignals.value X = some L ∧
    (run engine s evs).2.map Prod.fst = evs ∧
    (∀ p ∈ (run engine s evs).2, ∀ e, owedSignal X L p.1 = some e → e ∈ p.2) := by
  refine ⟨?_, run_events engine evs s, ?_⟩
  · induction evs generalizing s with
    | nil => exact hL
    | cons ev rest ih =>
      simp only [run]
      have hfirst : Effect.RouterOnBeforeClose X ∉ (dispatch engine s ev).2 :=
        hclose (ev, (dispatch engine s ev).2) (by simp [run])
      exact ih (dispatch engine s ev).1
        (dispatch_keeps_listener engine s X L ev hL (hev ev (List.mem_cons_self _ _)) hfirst)
        (fun ev2 h2 => hev ev2 (List.mem_cons_of_mem _ h2))
        (fun p hp => hclose p (by simp only [run]; exact List.mem_cons_of_mem _ hp))
  · induction evs generalizing s with
    | nil =>
      intro p hp
      simp [run] at hp
    | cons ev rest ih =>
      intro p hp e he
      have hfirst : Effect.RouterOnBeforeClose X ∉ (dispatch engine s ev).2 :=
        hclose (ev, (dispatch engine s ev).2) (by simp [run])
      have hrest : ∀ p ∈ (run engine (dispatch engine s ev).1 rest).2,
          Effect.RouterOnBeforeClose X ∉ p.2 :=
        fun p hp => hclose p (by simp only [run]; exact List.mem_cons_of_mem _ hp)
      simp only [run, List.mem_cons] at hp
      rcases hp with hp | hp
      · subst hp
        exact dispatch_delivers_signal engine s X L ev e hL he
      · exact ih (dispatch engine s ev).1
          (dispatch_keeps_listener engine s X L ev hL (hev ev (List.mem_cons_self _ _)) hfirst)
          (fun ev2 h2 => hev ev2 (List.mem_cons_of_mem _ h2)) hrest p hp e he

/-- C4 amended, at a concrete input: listener 5 of instance 7 survives the
events of `listenerExampleEvents` and is signalled by each load event of 7. -/
theorem C4_listener_persists_witness :
    (run exampleEngine listening7 listenerExampleEvents).1.m_browserSignals.value 7
      = some ⟨5⟩ ∧
    (run exampleEngine listening7 listenerExampleEvents).2.map Prod.fst
      = listenerExampleEvents ∧
    (∀ p ∈ (run exampleEngine listening7 listenerExampleEvents).2,
      ∀ e, owedSignal 7 ⟨5⟩ p.1 = some e → e ∈ p.2) :=
  C4_listener_persists exampleEngine listening7 7 ⟨5⟩ listenerExampleEvents (by decide)
    (by decide) (by decide)

/-! ## C5: commands for an unknown instance -/

/-- C5: a navigate (`openWebPage`), evaluateScript (`evaluateJavaScript`),
renderToFile (`renderPage`), stop (`stopWebPage`) or closeInstance
(`closeWebPage`) command whose instance id is not in the registry is not
handled: `OnQuery` returns `false`, makes no call at all (no engine operation,
no sink invoked) and leaves every table, in particular both pending tables,
unchanged. -/
theorem C5_unknown_instance_fails (engine : Engine) (s : PhantomJSHandler)
    (browser : CefBrowser) (frame : CefFrame) (query_id : Int) (json : QJsonObject)
    (persistent : Bool) (callback : Callback)
    (htype : (json.value "type").toString ∈
      ["openWebPage", "evaluateJavaScript", "renderPage", "stopWebPage", "closeWebPage"])
    (hreg : s.m_browsers.value ((json.value "browser").toInt (-1)) = none) :
    OnQuery engine s browser frame query_id (some json) persistent callback = (false, s, []) := by
  apply OnQuery_unknown_browser engine s browser frame query_id json persistent callback _ _ _ hreg
  all_goals
    intro h
    rw [h] at htype
    revert htype
    decide

/-- C5 at a concrete input: a navigate for instance 99 while only 7 is registered. -/
theorem C5_unknown_instance_fails_witness :
    OnQuery exampleEngine navigating7 ⟨1⟩ ⟨true⟩ 43 (some (navigateRequest 99 "http://x")) false
      ⟨2⟩ = (false, navigating7, []) :=
  C5_unknown_instance_fails exampleEngine navigating7 ⟨1⟩ ⟨true⟩ 43
    (navigateRequest 99 "http://x") false ⟨2⟩ (by decide) (by decide)

/-! ## C6: the evaluation round trip -/

/-- The round trip works whenever the result delivery reads back the call id:
after evaluateScript for a registered instance under call id `q` with sink
`c`, a result delivery whose `queryId` is read as `q`, with value `v` and no
exception, hands `Success(v)` to `c`, answers the delivering command, and
leaves no entry for `q`. -/
theorem eval_round_trip_in_range (engine : Engine) (s : PhantomJSHandler) (i q : Int)
    (v : String) (c cb : Callback) (b1 b2 : CefBrowser) (f1 f2 : CefFrame) (q2 : Int)
    (p1 p2 : Bool) (json1 json2 : QJsonObject)
    (hreg : s.m_browsers.value i = some ⟨i⟩)
    (hcmd : isCommandFor json1 "evaluateJavaScript" i)
    (htype : (json2.value "type").toString = "returnEvaluateJavaScript")
    (hq : (json2.value "queryId").toInt (-1) = q)
    (hv : (json2.value "retval").toString = v)
    (hex : (json2.value "exception").toString = "") :
    (OnQuery engine s b1 f1 q (some json1) p1 c).1 = true ∧
    (OnQuery engine (OnQuery engine s b1 f1 q (some json1) p1 c).2.1
        b2 f2 q2 (some json2) p2 cb).2.2 =
      [Effect.Success c v, Effect.Success cb ""] ∧
    (OnQuery engine (OnQuery engine s b1 f1 q (some json1) p1 c).2.1
        b2 f2 q2 (some json2) p2 cb).2.1.m_pendingQueryCallbacks.value q
      = none := by
  rw [OnQuery_evaluateJavaScript engine s b1 f1 q json1 p1 c i ⟨i⟩ hcmd hreg]
  simp only []
  rw [OnQuery_returnEvaluateJavaScript engine _ b2 f2 q2 json2 p2 cb c htype
    (by rw [hq]; exact QHash.value_insert_self _ _ _)]
  refine ⟨trivial, ?_, ?_⟩
  · have hemp : ("" : String).isEmpty = true := by decide
    simp [hex, hv, hemp]
  · simp only [hq]
    exact QHash.value_remove_self _ _

/-- C6 fails on the code for call ids beyond 32 bits.  Instance 7 is
registered; evaluateScript for 7 arrives under query id 2147483648 with sink 3
and is registered under that id.  The result delivery
`queryId: 2147483648, retval: "2"` is then not handled: `OnQuery` returns
`false`, invokes no callback, and the entry for 2147483648 stays in the
pending-evaluation table, because `toInt(-1)` reads the id as a 32-bit `int`. -/
theorem C6_round_trip_lost_beyond_int32 :
    (OnQuery exampleEngine registered7 ⟨1⟩ ⟨true⟩ 2147483648
      (some (evaluateRequest 7 "1+1")) false ⟨3⟩) =
      (true,
        { registered7 with m_pendingQueryCallbacks := [(2147483648, ⟨3⟩)] },
        [Effect.ExecuteJavaScript 7
          "phantom.internal.handleEvaluateJavaScript(1+1, 2147483648)"
          "phantomjs://evaluateJavaScript" 1]) ∧
    (OnQuery exampleEngine
      (OnQuery exampleEngine registered7 ⟨1⟩ ⟨true⟩ 2147483648
        (some (evaluateRequest 7 "1+1")) false ⟨3⟩).2.1
      ⟨1⟩ ⟨true⟩ 2147483649 (some (evalResultRequest 2147483648 "2")) false ⟨4⟩) =
      (false,
        { registered7 with m_pendingQueryCallbacks := [(2147483648, ⟨3⟩)] },
        []) := by
  decide

/-! ## C7: navigate, then load finished -/

/-- C7: for a registered instance `i`, dispatching navigate with sink `c` is
handled, makes only the engine's `LoadURL` call (so `c` is not invoked) and
registers `c` in the pending-navigation table under key `i`.  A main-frame
load-finished event for `i` with status `st` that follows removes the entry
and resolves `c` first: with `Success` carrying the decimal string of `st`
when `200 ≤ st < 400`, with `Failure(st, "load error")` when `st ≥ 400`; the
only other call is the notification of the listener of `i`, if one is bound. -/
theorem C7_navigate_then_load_finished (engine : Engine) (s : PhantomJSHandler)
    (browser : CefBrowser) (frame : CefFrame) (query_id : Int) (json : QJsonObject)
    (persistent : Bool) (i : Int) (c : Callback) (st : Int)
    (hcmd : isCommandFor json "openWebPage" i)
    (hreg : s.m_browsers.value i = some ⟨i⟩) :
    (OnQuery engine s browser frame query_id (some json) persistent c).1 = true ∧
    (OnQuery engine s browser frame query_id (some json) persistent c).2.2 =
      [Effect.LoadURL i (json.value "url").toString] ∧
    (OnQuery engine s browser frame query_id (some json) persistent
      c).2.1.m_pendingOpenBrowserRequests.value i = some c ∧
    (200 ≤ st →
      (OnLoadEnd (OnQuery engine s browser frame query_id (some json) persistent c).2.1
        ⟨i⟩ ⟨true⟩ st).1.m_pendingOpenBrowserRequests.value i = none) ∧
    (200 ≤ st → st < 400 →
      (OnLoadEnd (OnQuery engine s browser frame query_id (some json) persistent c).2.1
        ⟨i⟩ ⟨true⟩ st).2 =
        Effect.Success c (toString st) :: listenerNotification s i true) ∧
    (400 ≤ st →
      (OnLoadEnd (OnQuery engine s browser frame query_id (some json) persistent c).2.1
        ⟨i⟩ ⟨true⟩ st).2 =
        Effect.Failure c st "load error" :: listenerNotification s i false) := by
  rw [OnQuery_openWebPage engine s browser frame query_id json persistent c i ⟨i⟩ hcmd hreg]
  simp only []
  have hpend : ({ s with
      m_pendingOpenBrowserRequests := s.m_pendingOpenBrowserRequests.insert i c } :
      PhantomJSHandler).m_pendingOpenBrowserRequests.value (CefBrowser.mk i).identifier
      = some c := QHash.value_insert_self _ _ _
  refine ⟨trivial, trivial, QHash.value_insert_self _ _ _, ?_, ?_, ?_⟩
  · intro h200
    rw [OnLoadEnd_main _ ⟨i⟩ st h200, handleLoadEnd_pending _ ⟨i⟩ st _ c hpend]
    exact QHash.value_remove_self _ _
  · intro h200 h400
    rw [OnLoadEnd_main _ ⟨i⟩ st h200, handleLoadEnd_pending _ ⟨i⟩ st _ c hpend]
    simp [resolution, h400, listenerNotification]
  · intro h400
    have h200 : 200 ≤ st := le_trans (by decide) h400
    have hn : ¬ st < 400 := not_lt.mpr h400
    rw [OnLoadEnd_main _ ⟨i⟩ st h200, handleLoadEnd_pending _ ⟨i⟩ st _ c hpend]
    simp [resolution, hn, listenerNotification]

/-- C7 at a concrete input: navigate for instance 7 with sink 2, then
load-finished(200); the decimal string of 200 is `"200"`. -/
theorem C7_navigate_then_load_finished_witness :
    toString (200 : Int) = "200" ∧
    ((OnQuery exampleEngine registered7 ⟨1⟩ ⟨true⟩ 43
      (some (navigateRequest 7 "http://x")) false ⟨2⟩).1 = true ∧
    (OnQuery exampleEngine registered7 ⟨1⟩ ⟨true⟩ 43
      (some (navigateRequest 7 "http://x")) false ⟨2⟩).2.2 =
      [Effect.LoadURL 7 (QJsonObject.value (navigateRequest 7 "http://x") "url").toString] ∧
    (OnQuery exampleEngine registered7 ⟨1⟩ ⟨true⟩ 43
      (some (navigateRequest 7 "http://x")) false
      ⟨2⟩).2.1.m_pendingOpenBrowserRequests.value 7 = some ⟨2⟩ ∧
    ((200 : Int) ≤ 200 →
      (OnLoadEnd (OnQuery exampleEngine registered7 ⟨1⟩ ⟨true⟩ 43
        (some (navigateRequest 7 "http://x")) false ⟨2⟩).2.1
        ⟨7⟩ ⟨true⟩ 200).1.m_pendingOpenBrowserRequests.value 7 = none) ∧
    ((200 : Int) ≤ 200 → (200 : Int) < 400 →
      (OnLoadEnd (OnQuery exampleEngine registered7 ⟨1⟩ ⟨true⟩ 43
        (some (navigateRequest 7 "http://x")) false ⟨2⟩).2.1
        ⟨7⟩ ⟨true⟩ 200).2 =
        Effect.Success ⟨2⟩ (toString (200 : Int)) :: listenerNotification registered7 7 true) ∧
    ((400 : Int) ≤ 200 →
      (OnLoadEnd (OnQuery exampleEngine registered7 ⟨1⟩ ⟨true⟩ 43
        (some (navigateRequest 7 "http://x")) false ⟨2⟩).2.1
        ⟨7⟩ ⟨true⟩ 200).2 =
        Effect.Failure ⟨2⟩ 200 "load error" :: listenerNotification registered7 7 false)) :=
  ⟨by decide,
    C7_navigate_then_load_finished exampleEngine registered7 ⟨1⟩ ⟨true⟩ 43
      (navigateRequest 7 "http://x") false 7 ⟨2⟩ 200 (by decide) (by decide)⟩

/-! ## C8: success or failure of a delivered evaluation result -/

/-- C8, as stated, fails: with evaluation 42 (sink 3) outstanding, a result
delivery that carries an `exception` field holding the empty string, or
holding a JSON object, resolves sink 3 with `Success`, not with `Failure`. -/
theorem C8_error_field_resolved_as_success :
    evaluating42.m_pendingQueryCallbacks.value 42 = some ⟨3⟩ ∧
    (OnQuery exampleEngine evaluating42 ⟨1⟩ ⟨true⟩ 50
      (some (evalErrorRequest 42 "2" (QJsonValue.Str ""))) false ⟨4⟩).2.2 =
      [Effect.Success ⟨3⟩ "2", Effect.Success ⟨4⟩ ""] ∧
    (OnQuery exampleEngine evaluating42 ⟨1⟩ ⟨true⟩ 50
      (some (evalErrorRequest 42 "2" QJsonValue.Object)) false ⟨4⟩).2.2 =
      [Effect.Success ⟨3⟩ "2", Effect.Success ⟨4⟩ ""] := by
  decide

/-- C8, amended: for every outstanding evaluation call `q` with sink `c` and
every result delivery whose `queryId` is read as `q`, the delivery resolves
`c` with `Failure(1, exception)` if and only if the `exception` field holds a
non-empty string, and with `Success` carrying the string value of `retval`
otherwise; in both cases the entry for `q` is removed, the delivering command
is handled and its own callback is answered with `Success`. -/
theorem C8_result_delivery_outcome (engine : Engine) (s : PhantomJSHandler)
    (browser : CefBrowser) (frame : CefFrame) (query_id : Int) (json : QJsonObject)
    (persistent : Bool) (callback c : Callback) (q : Int)
    (htype : (json.value "type").toString = "returnEvaluateJavaScript")
    (hid : (json.value "queryId").toInt (-1) = q)
    (hq : s.m_pendingQueryCallbacks.value q = some c) :
    ((json.value "exception").toString ≠ "" →
      OnQuery engine s browser frame query_id (some json) persistent callback =
        (true, { s with m_pendingQueryCallbacks := s.m_pendingQueryCallbacks.remove q },
          [Effect.Failure c 1 (json.value "exception").toString,
            Effect.Success callback ""])) ∧
    ((json.value "exception").toString = "" →
      OnQuery engine s browser frame query_id (some json) persistent callback =
        (true, { s with m_pendingQueryCallbacks := s.m_pendingQueryCallbacks.remove q },
          [Effect.Success c (json.value "retval").toString,
            Effect.Success callback ""])) := by
  have hrun := OnQuery_returnEvaluateJavaScript engine s browser frame query_id json
    persistent callback c htype (by rw [hid]; exact hq)
  rw [hid] at hrun
  constructor
  · intro hne
    rw [hrun, isEmpty_eq_false _ hne]
    rfl
  · intro he
    have hemp : (json.value "exception").toString.isEmpty = true :=
      (String.isEmpty_iff _).mpr he
    rw [hrun, hemp]
    rfl

/-- C8 amended, at a concrete input: evaluation 42 receives the exception
`"boom"`. -/
theorem C8_result_delivery_outcome_witness :
    OnQuery exampleEngine evaluating42 ⟨1⟩ ⟨true⟩ 50
      (some (evalErrorRequest 42 "" (QJsonValue.Str "boom"))) false ⟨4⟩ =
      (true,
        { evaluating42 with
          m_pendingQueryCallbacks := evaluating42.m_pendingQueryCallbacks.remove 42 },
        [Effect.Failure ⟨3⟩ 1
            (QJsonObject.value (evalErrorRequest 42 "" (QJsonValue.Str "boom"))
              "exception").toString,
          Effect.Success ⟨4⟩ ""]) :=
  (C8_result_delivery_outcome exampleEngine evaluating42 ⟨1⟩ ⟨true⟩ 50
    (evalErrorRequest 42 "" (QJsonValue.Str "boom")) false ⟨4⟩ ⟨3⟩ 42
    (by decide) (by decide) (by decide)).1 (by decide)

/-! ## C9: resolution against an absent key -/

theorem OnLoadError_absent (s : PhantomJSHandler) (i : Int) (errorCode : Int)
    (errorText failedUrl : String)
    (hpend : s.m_pendingOpenBrowserRequests.value i = none) :
    OnLoadError s ⟨i⟩ ⟨true⟩ errorCode errorText failedUrl =
      (s, listenerNotification s i false ++
        (if errorCode = ERR_ABORTED then []
         else [Effect.LoadString i ⟨true⟩ (loadErrorPage errorCode errorText failedUrl)
           failedUrl])) := by
  have h : handleLoadEnd s ⟨i⟩ errorCode false = (s, listenerNotification s i false) :=
    handleLoadEnd_absent s ⟨i⟩ errorCode false hpend
  by_cases hab : errorCode = ERR_ABORTED
  · simp only [OnLoadError, if_pos hab, h]
    simp
  · simp only [OnLoadError, if_neg hab, h]
    simp

theorem OnLoadEnd_absent (s : PhantomJSHandler) (i : Int) (status : Int)
    (hpend : s.m_pendingOpenBrowserRequests.value i = none) :
    (OnLoadEnd s ⟨i⟩ ⟨true⟩ status).1 = s ∧
    ∀ e ∈ (OnLoadEnd s ⟨i⟩ ⟨true⟩ status).2,
      e ∈ listenerNotification s i (decide (status < 400)) := by
  by_cases h200 : 200 ≤ status
  · rw [OnLoadEnd_main s ⟨i⟩ status h200, handleLoadEnd_absent s ⟨i⟩ status _ hpend]
    exact ⟨rfl, fun e he => he⟩
  · have hlt : status < 200 := not_le.mp h200
    simp [OnLoadEnd, hlt]

/-- C9: resolution against an absent key is a no-op.
(a) A result delivery whose call id has no entry in the pending-evaluation
table is not handled: `OnQuery` returns `false`, makes no call and leaves
every table unchanged.
(b) A main-frame load-finished event, and (c) a main-frame load-error event,
for an instance `i` with no pending-navigation entry leave every table
unchanged; the only callback they can invoke is the listener bound to `i`, so
when that listener is not itself a pending-call sink, no pending-call sink is
invoked. -/
theorem C9_absent_key_is_noop (engine : Engine) (s : PhantomJSHandler) (browser : CefBrowser)
    (frame : CefFrame) (query_id : Int) (json : QJsonObject) (persistent : Bool)
    (callback : Callback) (i : Int) (status errorCode : Int) (errorText failedUrl : String) :
    ((json.value "type").toString = "returnEvaluateJavaScript" →
      s.m_pendingQueryCallbacks.value ((json.value "queryId").toInt (-1)) = none →
      OnQuery engine s browser frame query_id (some json) persistent callback
        = (false, s, [])) ∧
    (s.m_pendingOpenBrowserRequests.value i = none →
      (OnLoadEnd s ⟨i⟩ ⟨true⟩ status).1 = s ∧
      (∀ e ∈ (OnLoadEnd s ⟨i⟩ ⟨true⟩ status).2, ∀ c, e.sink = some c →
        s.m_browserSignals.value i = some c) ∧
      ((∀ L, s.m_browserSignals.value i = some L → L ∉ pendingSinks s) →
        ∀ e ∈ (OnLoadEnd s ⟨i⟩ ⟨true⟩ status).2, ∀ c ∈ pendingSinks s, e.sink ≠ some c)) ∧
    (s.m_pendingOpenBrowserRequests.value i = none →
      (OnLoadError s ⟨i⟩ ⟨true⟩ errorCode errorText failedUrl).1 = s ∧
      (∀ e ∈ (OnLoadError s ⟨i⟩ ⟨true⟩ errorCode errorText failedUrl).2, ∀ c,
        e.sink = some c → s.m_browserSignals.value i = some c) ∧
      ((∀ L, s.m_browserSignals.value i = some L → L ∉ pendingSinks s) →
        ∀ e ∈ (OnLoadError s ⟨i⟩ ⟨true⟩ errorCode errorText failedUrl).2,
          ∀ c ∈ pendingSinks s, e.sink ≠ some c)) := by
  refine ⟨?_, ?_, ?_⟩
  · intro htype hq
    exact OnQuery_returnEvaluateJavaScript_absent engine s browser frame query_id json
      persistent callback htype hq
  · intro hpend
    obtain ⟨hstate, heff⟩ := OnLoadEnd_absent s i status hpend
    refine ⟨hstate, ?_, ?_⟩
    · intro e he c hc
      rw [← listenerNotification_sink s i _ e (heff e he)]
      exact hc
    · intro hL e he c hc
      exact listenerNotification_not_pending s i _ hL e (heff e he) c hc
  · intro hpend
    rw [OnLoadError_absent s i errorCode errorText failedUrl hpend]
    have hcase : ∀ e ∈ listenerNotification s i false ++
        (if errorCode = ERR_ABORTED then []
         else [Effect.LoadString i ⟨true⟩ (loadErrorPage errorCode errorText failedUrl)
           failedUrl]),
        e ∈ listenerNotification s i false ∨ e.sink = none := by
      intro e he
      rcases List.mem_append.mp he with h | h
      · exact Or.inl h
      · right
        split_ifs at h
        · simp at h
        · simp only [List.mem_singleton] at h
          subst h
          rfl
    refine ⟨rfl, ?_, ?_⟩
    · intro e he c hc
      rcases hcase e he with h | h
      · rw [← listenerNotification_sink s i _ e h]
        exact hc
      · rw [h] at hc
        exact absurd hc (by simp)
    · intro hL e he c hc
      rcases hcase e he with h | h
      · exact listenerNotification_not_pending s i _ hL e h c hc
      · rw [h]
        simp

/-- C9 at a concrete input: instance 7 has a listener but nothing is pending;
a result delivery for call id 42, a load-finished(200) and a load error for
instance 7 all leave the tables as they were. -/
theorem C9_absent_key_is_noop_witness :
    OnQuery exampleEngine listening7 ⟨1⟩ ⟨true⟩ 50 (some (evalResultRequest 42 "2")) false ⟨4⟩
      = (false, listening7, []) ∧
    (OnLoadEnd listening7 ⟨7⟩ ⟨true⟩ 200).1 = listening7 ∧
    (OnLoadError listening7 ⟨7⟩ ⟨true⟩ (-105) "ERR_NAME_NOT_RESOLVED" "http://x").1
      = listening7 :=
  ⟨(C9_absent_key_is_noop exampleEngine listening7 ⟨1⟩ ⟨true⟩ 50 (evalResultRequest 42 "2")
      false ⟨4⟩ 7 200 (-105) "ERR_NAME_NOT_RESOLVED" "http://x").1 (by decide) (by decide),
   ((C9_absent_key_is_noop exampleEngine listening7 ⟨1⟩ ⟨true⟩ 50 (evalResultRequest 42 "2")
      false ⟨4⟩ 7 200 (-105) "ERR_NAME_NOT_RESOLVED" "http://x").2.1 (by decide)).1,
   ((C9_absent_key_is_noop exampleEngine listening7 ⟨1⟩ ⟨true⟩ 50 (evalResultRequest 42 "2")
      false ⟨4⟩ 7 200 (-105) "ERR_NAME_NOT_RESOLVED" "http://x").2.2 (by decide)).1⟩

/-! ## C10: a pending navigate and a listener on the same load event -/

/-- C10, as stated, fails: instance 7 has an outstanding navigate (sink 1) and
a listener (callback 5), yet a main-frame load-finished event with status 0
produces no delivery at all and leaves the navigate outstanding. -/
theorem C10_blank_load_finished_delivers_nothing :
    busy7.m_pendingOpenBrowserRequests.value 7 = some ⟨1⟩ ∧
    busy7.m_browserSignals.value 7 = some ⟨5⟩ ∧
    deliveries (OnLoadEnd busy7 ⟨7⟩ ⟨true⟩ 0).2 = [] ∧
    (OnLoadEnd busy7 ⟨7⟩ ⟨true⟩ 0).1.m_pendingOpenBrowserRequests.value 7 = some ⟨1⟩ := by
  decide

/-- C10, amended: when instance `i` has both an outstanding navigate sink `c`
and a listener `L`, one main-frame load-finished event with status at least
200, or one main-frame load-error event, produces exactly two deliveries in
this order: first the resolution of `c` (`Success` with the status string
below 400, `Failure(code, "load error")` otherwise), then an `onLoadFinished`
signal to `L` whose argument is `success` exactly when `c` was resolved with
`Success` and `fail` otherwise; afterwards the entry of `c` is removed and `L`
is still bound. -/
theorem C10_resolution_then_listener (s : PhantomJSHandler) (i : Int) (c L : Callback)
    (status errorCode : Int) (errorText failedUrl : String)
    (hpend : s.m_pendingOpenBrowserRequests.value i = some c)
    (hL : s.m_browserSignals.value i = some L) :
    (200 ≤ status → status < 400 →
      (OnLoadEnd s ⟨i⟩ ⟨true⟩ status).2 =
        [Effect.Success c (toString status),
         Effect.Success L (onLoadFinishedSignal true)]) ∧
    (400 ≤ status →
      (OnLoadEnd s ⟨i⟩ ⟨true⟩ status).2 =
        [Effect.Failure c status "load error",
         Effect.Success L (onLoadFinishedSignal false)]) ∧
    (200 ≤ status →
      (OnLoadEnd s ⟨i⟩ ⟨true⟩ status).1.m_pendingOpenBrowserRequests.value i = none ∧
      (OnLoadEnd s ⟨i⟩ ⟨true⟩ status).1.m_browserSignals.value i = some L) ∧
    deliveries (OnLoadError s ⟨i⟩ ⟨true⟩ errorCode errorText failedUrl).2 =
      [Effect.Failure c errorCode "load error",
       Effect.Success L (onLoadFinishedSignal false)] ∧
    (OnLoadError s ⟨i⟩ ⟨true⟩ errorCode errorText failedUrl).1.m_pendingOpenBrowserRequests.value
      i = none ∧
    (OnLoadError s ⟨i⟩ ⟨true⟩ errorCode errorText failedUrl).1.m_browserSignals.value i
      = some L := by
  have hnote : ∀ b, listenerNotification s i b = [Effect.Success L (onLoadFinishedSignal b)] := by
    intro b
    simp [listenerNotification, hL]
  have hend : ∀ code b, handleLoadEnd s ⟨i⟩ code b =
      ({ s with m_pendingOpenBrowserRequests := s.m_pendingOpenBrowserRequests.remove i },
        [resolution c code b, Effect.Success L (onLoadFinishedSignal b)]) := by
    intro code b
    rw [handleLoadEnd_pending s ⟨i⟩ code b c hpend, hnote]
  refine ⟨?_, ?_, ?_, ?_, ?_, ?_⟩
  · intro h200 h400
    rw [OnLoadEnd_main s ⟨i⟩ status h200, hend]
    simp [resolution, h400]
  · intro h400
    have h200 : 200 ≤ status := le_trans (by decide) h400
    have hn : ¬ status < 400 := not_lt.mpr h400
    rw [OnLoadEnd_main s ⟨i⟩ status h200, hend]
    simp [resolution, hn]
  · intro h200
    rw [OnLoadEnd_main s ⟨i⟩ status h200, hend]
    exact ⟨QHash.value_remove_self _ _, hL⟩
  · by_cases hab : errorCode = ERR_ABORTED
    · simp only [OnLoadError, if_pos hab, hend]
      simp [deliveries, resolution, Effect.sink]
    · simp only [OnLoadError, if_neg hab, hend]
      simp [deliveries, resolution, Effect.sink]
  · by_cases hab : errorCode = ERR_ABORTED
    · simp only [OnLoadError, if_pos hab, hend]
      exact QHash.value_remove_self _ _
    · simp only [OnLoadError, if_neg hab, hend]
      exact QHash.value_remove_self _ _
  · by_cases hab : errorCode = ERR_ABORTED
    · simp only [OnLoadError, if_pos hab, hend]
      exact hL
    · simp only [OnLoadError, if_neg hab, hend]
      exact hL

/-- C10 amended, at a concrete input: instance 7 with sink 1 and listener 5
receives load-finished(404) and a load error. -/
theorem C10_resolution_then_listener_witness :
    (OnLoadEnd busy7 ⟨7⟩ ⟨true⟩ 404).2 =
      [Effect.Failure ⟨1⟩ 404 "load error",
       Effect.Success ⟨5⟩ (onLoadFinishedSignal false)] ∧
    deliveries (OnLoadError busy7 ⟨7⟩ ⟨true⟩ (-105) "ERR_NAME_NOT_RESOLVED" "http://x").2 =
      [Effect.Failure ⟨1⟩ (-105) "load error",
       Effect.Success ⟨5⟩ (onLoadFinishedSignal false)] :=
  ⟨(C10_resolution_then_listener busy7 7 ⟨1⟩ ⟨5⟩ 404 (-105) "ERR_NAME_NOT_RESOLVED" "http://x"
      (by decide) (by decide)).2.1 (by decide),
   (C10_resolution_then_listener busy7 7 ⟨1⟩ ⟨5⟩ 404 (-105) "ERR_NAME_NOT_RESOLVED" "http://x"
      (by decide) (by decide)).2.2.2.1⟩

/-! ## C11: load events that are filtered out -/

/-- C11: a load-start, load-finished or load-error event for a frame that is
not the main frame, and a load-finished event with status below 200 for any
frame, leave all four tables unchanged and invoke no callback (no pending call
is resolved, no listener is signalled); the load-start and load-finished
events make no call at all. -/
theorem C11_filtered_load_events (s : PhantomJSHandler) (browser : CefBrowser)
    (frame : CefFrame) (st errorCode : Int) (errorText failedUrl : String) :
    OnLoadStart s browser ⟨false⟩ = (s, []) ∧
    OnLoadEnd s browser ⟨false⟩ st = (s, []) ∧
    (st < 200 → OnLoadEnd s browser frame st = (s, [])) ∧
    (OnLoadError s browser ⟨false⟩ errorCode errorText failedUrl).1 = s ∧
    deliveries (OnLoadError s browser ⟨false⟩ errorCode errorText failedUrl).2 = [] := by
  refine ⟨rfl, by simp [OnLoadEnd], ?_, ?_, ?_⟩
  · intro hst
    simp [OnLoadEnd, hst]
  · by_cases hab : errorCode = ERR_ABORTED
    · simp [OnLoadError, hab]
    · simp [OnLoadError, hab]
  · by_cases hab : errorCode = ERR_ABORTED
    · simp [OnLoadError, hab, deliveries]
    · simp [OnLoadError, hab, deliveries, Effect.sink]

/-- C11 at a concrete input: instance 7 has a pending navigate and a listener;
a main-frame load-finished with status 0 and sub-frame events change nothing. -/
theorem C11_filtered_load_events_witness :
    OnLoadStart busy7 ⟨7⟩ ⟨false⟩ = (busy7, []) ∧
    OnLoadEnd busy7 ⟨7⟩ ⟨false⟩ 0 = (busy7, []) ∧
    ((0 : Int) < 200 → OnLoadEnd busy7 ⟨7⟩ ⟨true⟩ 0 = (busy7, [])) ∧
    (OnLoadError busy7 ⟨7⟩ ⟨false⟩ (-105) "ERR_NAME_NOT_RESOLVED" "http://x").1 = busy7 ∧
    deliveries (OnLoadError busy7 ⟨7⟩ ⟨false⟩ (-105) "ERR_NAME_NOT_RESOLVED" "http://x").2
      = [] :=
  C11_filtered_load_events busy7 ⟨7⟩ ⟨true⟩ 0 (-105) "ERR_NAME_NOT_RESOLVED" "http://x"

/-! ## C12: the registry after an instance closes -/

theorem OnBeforeClose_browsers (s : PhantomJSHandler) (browser : CefBrowser)
    (canceled : List Int) :
    (OnBeforeClose s browser canceled).1.m_browsers = s.m_browsers.remove browser.identifier := by
  unfold OnBeforeClose
  simp only []
  split <;> simp [canceled_fold_browsers]

theorem OnBeforeClose_quit (s : PhantomJSHandler) (browser : CefBrowser)
    (canceled : List Int) :
    Effect.QuitMessageLoop ∈ (OnBeforeClose s browser canceled).2 ↔
      (s.m_browsers.remove browser.identifier).empty = true := by
  unfold OnBeforeClose
  simp only [canceled_fold_browsers]
  by_cases hempty : (s.m_browsers.remove browser.identifier).empty = true
  · simp [hempty]
  · simp [hempty]

/-- C12: handling the instance-closed event for `i` yields the previous
registry with key `i` removed: `i` is no longer registered and every other
instance keeps its entry.  `CefQuitMessageLoop` is called if and only if the
registry is empty after that removal. -/
theorem C12_close_removes_from_registry (s : PhantomJSHandler) (i : Int)
    (canceled : List Int) :
    (OnBeforeClose s ⟨i⟩ canceled).1.m_browsers = s.m_browsers.remove i ∧
    (OnBeforeClose s ⟨i⟩ canceled).1.m_browsers.value i = none ∧
    (∀ j, j ≠ i → (OnBeforeClose s ⟨i⟩ canceled).1.m_browsers.value j = s.m_browsers.value j) ∧
    (Effect.QuitMessageLoop ∈ (OnBeforeClose s ⟨i⟩ canceled).2 ↔
      (OnBeforeClose s ⟨i⟩ canceled).1.m_browsers.empty = true) := by
  have hb := OnBeforeClose_browsers s ⟨i⟩ canceled
  refine ⟨hb, ?_, ?_, ?_⟩
  · rw [hb]
    exact QHash.value_remove_self _ _
  · intro j hj
    rw [hb]
    exact QHash.value_remove_of_ne _ _ _ hj
  · rw [hb]
    exact OnBeforeClose_quit s ⟨i⟩ canceled

/-- C12 at a concrete input: with 7 and 8 registered, closing 7 keeps 8 and
does not quit. -/
theorem C12_close_removes_from_registry_witness :
    (OnBeforeClose twoNavigations ⟨7⟩ []).1.m_browsers.value 7 = none ∧
    (OnBeforeClose twoNavigations ⟨7⟩ []).1.m_browsers.value 8
      = twoNavigations.m_browsers.value 8 ∧
    (Effect.QuitMessageLoop ∈ (OnBeforeClose twoNavigations ⟨7⟩ []).2 ↔
      (OnBeforeClose twoNavigations ⟨7⟩ []).1.m_browsers.empty = true) :=
  ⟨(C12_close_removes_from_registry twoNavigations 7 []).2.1,
   (C12_close_removes_from_registry twoNavigations 7 []).2.2.1 8 (by decide),
   (C12_close_removes_from_registry twoNavigations 7 []).2.2.2⟩

/-! ## C13: full shutdown -/

theorem cancelPending_fold_browsers (canceled : List (CefBrowser × Int)) (s : PhantomJSHandler) :
    (canceled.foldl (fun h p => OnQueryCanceled h p.1 p.2) s).m_browsers = s.m_browsers := by
  induction canceled generalizing s with
  | nil => rfl
  | cons p rest ih => simp only [List.foldl_cons, ih]; rfl

/-- With an empty registry `CloseAllBrowsers` succeeds: it only asks the
router to cancel the pending queries, invokes no callback, and can be
repeated. -/
theorem CloseAllBrowsers_empty_registry (s : PhantomJSHandler) (force_close : Bool)
    (canceled : List (CefBrowser × Int)) (closing : CefBrowser → Option (List Int))
    (hempty : s.m_browsers = []) :
    CloseAllBrowsers s force_close true canceled closing =
      Except.ok (canceled.foldl (fun h p => OnQueryCanceled h p.1 p.2) s,
        [Effect.RouterCancelPending]) := by
  have hb := cancelPending_fold_browsers canceled s
  rw [hempty] at hb
  simp [CloseAllBrowsers, hb, QHash.empty]

theorem remove_eq_filter {V : Type} (h : QHash V) (key : Int) :
    h.remove key = h.filter (fun e => decide (e.1 ≠ key)) := by
  induction h with
  | nil => rfl
  | cons e rest ih =>
    obtain ⟨k, v⟩ := e
    by_cases hk : k = key
    · simp [QHash.remove, hk, ih]
    · simp [QHash.remove, hk, ih]

theorem closeOne_inline_browsers (force_close : Bool) (closing : CefBrowser → Option (List Int))
    (hinline : ∀ b, closing b ≠ none) (bs : List CefBrowser)
    (acc : PhantomJSHandler × List Effect) :
    (bs.foldl (closeOne force_close closing) acc).1.m_browsers =
      acc.1.m_browsers.filter (fun e => decide (e.1 ∉ bs.map CefBrowser.identifier)) := by
  induction bs generalizing acc with
  | nil => simp
  | cons b rest ih =>
    simp only [List.foldl_cons]
    rw [ih]
    cases hc : closing b with
    | none => exact absurd hc (hinline b)
    | some canceled =>
      simp only [closeOne, hc, OnBeforeClose_browsers, remove_eq_filter, List.filter_filter]
      congr 1
      funext e
      simp only [List.map_cons, List.mem_cons, not_or]
      by_cases h1 : e.1 = b.identifier <;> by_cases h2 : e.1 ∈ rest.map CefBrowser.identifier <;>
        simp [h1, h2]

/-- When the engine destroys every browser before `CloseBrowser` returns and
every registry entry is stored under the identifier of its browser, the
assertion of `CloseAllBrowsers` holds and the registry is empty afterwards. -/
theorem CloseAllBrowsers_inline (s : PhantomJSHandler) (force_close : Bool)
    (canceled : List (CefBrowser × Int)) (closing : CefBrowser → Option (List Int))
    (hinline : ∀ b, closing b ≠ none)
    (hkeys : ∀ e ∈ s.m_browsers, e.2.identifier = e.1) :
    ∃ r, CloseAllBrowsers s force_close true canceled closing = Except.ok r ∧
      r.1.m_browsers = [] := by
  have hb := cancelPending_fold_browsers canceled s
  have hall := closeOne_inline_browsers force_close closing hinline
    (s.m_browsers.map Prod.snd)
    (canceled.foldl (fun h p => OnQueryCanceled h p.1 p.2) s, [Effect.RouterCancelPending])
  simp only [hb] at hall
  have hnil : s.m_browsers.filter
      (fun e => decide (e.1 ∉ (s.m_browsers.map Prod.snd).map CefBrowser.identifier)) = [] := by
    rw [List.filter_eq_nil_iff]
    intro e he
    simp only [decide_eq_true_eq, not_not, List.mem_map]
    exact ⟨e.2, ⟨e, he, rfl⟩, hkeys e he⟩
  rw [hnil] at hall
  refine ⟨_, ?_, hall⟩
  simp [CloseAllBrowsers, hb, hall, QHash.empty]

/-- C13 fails on the code whenever an instance is registered and the engine
does not destroy it before `CloseBrowser` returns.  With instance 7 registered
and nothing pending, `CloseAllBrowsers(true)` on the UI thread requests the
close of 7 and then `LOG_ASSERT(m_browsers.empty())` fails: the first
invocation already ends in the fatal assertion error. -/
theorem C13_shutdown_assertion_fails :
    registered7.m_browsers.value 7 = some ⟨7⟩ ∧
    CloseAllBrowsers registered7 true true [] closesLater = Except.error assertFailedMessage ∧
    (registered7.m_browsers.map Prod.snd).foldl (closeOne true closesLater)
        (registered7, [Effect.RouterCancelPending]) =
      (registered7, [Effect.RouterCancelPending, Effect.CloseBrowser 7 true]) := by
  refine ⟨by decide, rfl, by decide⟩

/-! ## C14: subscribing a listener -/

/-- C14: dispatching subscribeSignals (`webPageSignals`) for instance `i` with
sink `c` is handled, makes no call, and makes `c` the listener binding for
`i`, replacing any prior binding; the bindings of every other id, the
registry and both pending tables are unchanged. -/
theorem C14_subscribe_binds_listener (engine : Engine) (s : PhantomJSHandler)
    (browser : CefBrowser) (frame : CefFrame) (query_id : Int) (json : QJsonObject)
    (persistent : Bool) (i : Int) (c : Callback)
    (hcmd : isCommandFor json "webPageSignals" i) :
    OnQuery engine s browser frame query_id (some json) persistent c =
      (true, { s with m_browserSignals := s.m_browserSignals.insert i c }, []) ∧
    (OnQuery engine s browser frame query_id (some json) persistent
      c).2.1.m_browserSignals.value i = some c ∧
    (∀ j, j ≠ i →
      (OnQuery engine s browser frame query_id (some json) persistent
        c).2.1.m_browserSignals.value j = s.m_browserSignals.value j) ∧
    (OnQuery engine s browser frame query_id (some json) persistent c).2.1.m_browsers
      = s.m_browsers ∧
    (OnQuery engine s browser frame query_id (some json) persistent
      c).2.1.m_pendingOpenBrowserRequests = s.m_pendingOpenBrowserRequests ∧
    (OnQuery engine s browser frame query_id (some json) persistent
      c).2.1.m_pendingQueryCallbacks = s.m_pendingQueryCallbacks := by
  obtain ⟨htype, hid⟩ := hcmd
  have hrun : OnQuery engine s browser frame query_id (some json) persistent c =
      (true, { s with m_browserSignals := s.m_browserSignals.insert i c }, []) := by
    simp [OnQuery, htype, hid]
  rw [hrun]
  refine ⟨rfl, QHash.value_insert_self _ _ _, ?_, rfl, rfl, rfl⟩
  intro j hj
  exact QHash.value_insert_of_ne _ _ _ _ hj

/-- C14 at a concrete input: instance 7 already has listener 5; a new
subscription with callback 6 replaces it. -/
theorem C14_subscribe_binds_listener_witness :
    listening7.m_browserSignals.value 7 = some ⟨5⟩ ∧
    (OnQuery exampleEngine listening7 ⟨1⟩ ⟨true⟩ 43
      (some (instanceRequest "webPageSignals" 7)) false ⟨6⟩).2.1.m_browserSignals.value 7
      = some ⟨6⟩ :=
  ⟨by decide,
   (C14_subscribe_binds_listener exampleEngine listening7 ⟨1⟩ ⟨true⟩ 43
      (instanceRequest "webPageSignals" 7) false 7 ⟨6⟩ (by decide)).2.1⟩

/-! ## C15: commands of an unknown kind -/

/-- C15: a parsed command whose `type` is none of the eight kinds that
`OnQuery` recognises is not handled: `OnQuery` returns `false`, makes no call
(no sink invoked, no engine operation) and leaves all four tables unchanged. -/
theorem C15_unknown_kind_fails (engine : Engine) (s : PhantomJSHandler)
    (browser : CefBrowser) (frame : CefFrame) (query_id : Int) (json : QJsonObject)
    (persistent : Bool) (callback : Callback)
    (hkind : (json.value "type").toString ∉
      ["createBrowser", "webPageSignals", "returnEvaluateJavaScript", "openWebPage",
        "stopWebPage", "closeWebPage", "evaluateJavaScript", "renderPage"]) :
    OnQuery engine s browser frame query_id (some json) persistent callback = (false, s, []) := by
  simp only [List.mem_cons, List.mem_singleton, List.not_mem_nil, or_false, not_or] at hkind
  obtain ⟨h1, h2, h3, h4, h5, h6, h7, h8⟩ := hkind
  cases hreg : s.m_browsers.value ((json.value "browser").toInt (-1)) with
  | none => simp [OnQuery, h1, h2, h3, hreg]
  | some subBrowser => simp [OnQuery, h1, h2, h3, h4, h5, h6, h7, h8, hreg]

/-- C15 at a concrete input: a `reload` command for the registered instance 7. -/
theorem C15_unknown_kind_fails_witness :
    OnQuery exampleEngine busy7 ⟨1⟩ ⟨true⟩ 43 (some (instanceRequest "reload" 7)) false ⟨6⟩
      = (false, busy7, []) :=
  C15_unknown_kind_fails exampleEngine busy7 ⟨1⟩ ⟨true⟩ 43 (instanceRequest "reload" 7) false ⟨6⟩
    (by decide)

/-! ## C16: explicit cancellation of one call -/

/-- C16, as stated, fails: instance 7 has an outstanding navigate (sink 1) and
a listener (callback 5); cancelling query 43 issued from browser 7 removes
both the pending-navigation entry and the listener binding keyed by 7. -/
theorem C16_cancel_removes_navigation_and_listener :
    busy7.m_pendingOpenBrowserRequests.value 7 = some ⟨1⟩ ∧
    busy7.m_browserSignals.value 7 = some ⟨5⟩ ∧
    (OnQueryCanceled busy7 ⟨7⟩ 43).m_pendingOpenBrowserRequests.value 7 = none ∧
    (OnQueryCanceled busy7 ⟨7⟩ 43).m_browserSignals.value 7 = none := by
  decide

/-- C16, amended: cancelling the call with id `q` issued from browser `b`
removes the pending-evaluation entry `q` and leaves unchanged the registry,
every pending-evaluation entry other than `q`, and every pending-navigation
entry and listener binding keyed by an id other than the identifier of `b`;
the pending-navigation entry and the listener binding keyed by the identifier
of `b` itself are removed. -/
theorem C16_cancel_frame (s : PhantomJSHandler) (b : CefBrowser) (q : Int) :
    (OnQueryCanceled s b q).m_browsers = s.m_browsers ∧
    (OnQueryCanceled s b q).m_pendingQueryCallbacks.value q = none ∧
    (∀ r, r ≠ q →
      (OnQueryCanceled s b q).m_pendingQueryCallbacks.value r
        = s.m_pendingQueryCallbacks.value r) ∧
    (∀ j, j ≠ b.identifier →
      (OnQueryCanceled s b q).m_pendingOpenBrowserRequests.value j
        = s.m_pendingOpenBrowserRequests.value j) ∧
    (∀ j, j ≠ b.identifier →
      (OnQueryCanceled s b q).m_browserSignals.value j = s.m_browserSignals.value j) ∧
    (OnQueryCanceled s b q).m_pendingOpenBrowserRequests.value b.identifier = none ∧
    (OnQueryCanceled s b q).m_browserSignals.value b.identifier = none := by
  refine ⟨rfl, QHash.value_remove_self _ _, ?_, ?_, ?_, QHash.value_remove_self _ _,
    QHash.value_remove_self _ _⟩
  · intro r hr
    exact QHash.value_remove_of_ne _ _ _ hr
  · intro j hj
    exact QHash.value_remove_of_ne _ _ _ hj
  · intro j hj
    exact QHash.value_remove_of_ne _ _ _ hj

/-- C16 amended, at a concrete input: cancelling query 42 issued from browser 1
removes evaluation 42 and keeps the navigate and the listener of instance 7. -/
theorem C16_cancel_frame_witness :
    (OnQueryCanceled busy7 ⟨1⟩ 42).m_pendingQueryCallbacks.value 42 = none ∧
    (OnQueryCanceled busy7 ⟨1⟩ 42).m_pendingOpenBrowserRequests.value 7
      = busy7.m_pendingOpenBrowserRequests.value 7 ∧
    (OnQueryCanceled busy7 ⟨1⟩ 42).m_browserSignals.value 7 = busy7.m_browserSignals.value 7 :=
  ⟨(C16_cancel_frame busy7 ⟨1⟩ 42).2.1,
   (C16_cancel_frame busy7 ⟨1⟩ 42).2.2.2.1 7 (by decide),
   (C16_cancel_frame busy7 ⟨1⟩ 42).2.2.2.2.1 7 (by decide)⟩

/-! ## C17: closeInstance and the registry -/

theorem OnQuery_closeWebPage (engine : Engine) (s : PhantomJSHandler) (browser : CefBrowser)
    (frame : CefFrame) (query_id : Int) (json : QJsonObject) (persistent : Bool)
    (callback : Callback) (i : Int) (subBrowser : CefBrowser)
    (hcmd : isCommandFor json "closeWebPage" i)
    (hreg : s.m_browsers.value i = some subBrowser) :
    OnQuery engine s browser frame query_id (some json) persistent callback =
      (true, (closeOne true engine.CloseBrowser (s, []) subBrowser).1,
        (closeOne true engine.CloseBrowser (s, []) subBrowser).2 ++
          [Effect.Success callback ""]) := by
  obtain ⟨htype, hid⟩ := hcmd
  simp [OnQuery, htype, hid, hreg]

theorem OnQuery_openWebPage_unknown (engine : Engine) (s : PhantomJSHandler)
    (browser : CefBrowser) (frame : CefFrame) (query_id : Int) (json : QJsonObject)
    (persistent : Bool) (callback : Callback) (i : Int)
    (hcmd : isCommandFor json "openWebPage" i)
    (hgone : s.m_browsers.value i = none) :
    OnQuery engine s browser frame query_id (some json) persistent callback = (false, s, []) := by
  obtain ⟨htype, hid⟩ := hcmd
  apply OnQuery_unknown_browser
  · rw [htype]; decide
  · rw [htype]; decide
  · rw [htype]; decide
  · rw [hid]; exact hgone

/-- C17, as stated, fails when the engine does not destroy the browser before
`CloseBrowser` returns (`exampleEngine` only records the request): with
instance 7 registered, the closeInstance command for 7 is answered with
`Success` while 7 is still in the registry, and a navigate for 7 dispatched
immediately afterwards is accepted and forwarded to the engine. -/
theorem C17_close_reply_precedes_removal :
    exampleEngine.CloseBrowser ⟨7⟩ = none ∧
    OnQuery exampleEngine registered7 ⟨1⟩ ⟨true⟩ 43
        (some (instanceRequest "closeWebPage" 7)) false ⟨6⟩ =
      (true, registered7, [Effect.CloseBrowser 7 true, Effect.Success ⟨6⟩ ""]) ∧
    (OnQuery exampleEngine registered7 ⟨1⟩ ⟨true⟩ 43
        (some (instanceRequest "closeWebPage" 7)) false ⟨6⟩).2.1.m_browsers.value 7
      = some ⟨7⟩ ∧
    OnQuery exampleEngine
        (OnQuery exampleEngine registered7 ⟨1⟩ ⟨true⟩ 43
          (some (instanceRequest "closeWebPage" 7)) false ⟨6⟩).2.1
        ⟨1⟩ ⟨true⟩ 44 (some (navigateRequest 7 "http://x")) false ⟨2⟩ =
      (true,
        { registered7 with m_pendingOpenBrowserRequests := [(7, ⟨2⟩)] },
        [Effect.LoadURL 7 "http://x"]) := by
  decide

/-- C17, amended: for a registered instance `i`, the closeInstance command is
handled by calling `CloseBrowser(true)` and then answering its own callback
with `Success`.  Once the instance-closed notification for `i` has been
handled, `i` is no longer in the registry and a navigate for `i` dispatched
after that is not handled (unknown instance: it returns `false`, makes no call
and changes nothing).  That notification is handled either inside the
`CloseBrowser` call, in which case `i` is already unknown when the command is
answered, or later as an event of its own, the command leaving the tables as
they were. -/
theorem C17_closed_instance_is_unknown (engine : Engine) (s : PhantomJSHandler)
    (b1 b2 : CefBrowser) (f1 f2 : CefFrame) (q1 q2 : Int) (json1 json2 : QJsonObject)
    (p1 p2 : Bool) (c1 c2 : Callback) (i : Int) (canceled : List Int)
    (hreg : s.m_browsers.value i = some ⟨i⟩)
    (hclose : isCommandFor json1 "closeWebPage" i)
    (hnav : isCommandFor json2 "openWebPage" i) :
    (OnQuery engine s b1 f1 q1 (some json1) p1 c1).1 = true ∧
    (∀ inside, engine.CloseBrowser ⟨i⟩ = some inside →
      (OnQuery engine s b1 f1 q1 (some json1) p1 c1).2 =
        ((OnBeforeClose s ⟨i⟩ inside).1,
          Effect.CloseBrowser i true :: (OnBeforeClose s ⟨i⟩ inside).2 ++
            [Effect.Success c1 ""]) ∧
      (OnQuery engine s b1 f1 q1 (some json1) p1 c1).2.1.m_browsers.value i = none ∧
      OnQuery engine (OnQuery engine s b1 f1 q1 (some json1) p1 c1).2.1
          b2 f2 q2 (some json2) p2 c2 =
        (false, (OnQuery engine s b1 f1 q1 (some json1) p1 c1).2.1, [])) ∧
    (engine.CloseBrowser ⟨i⟩ = none →
      (OnQuery engine s b1 f1 q1 (some json1) p1 c1).2 =
        (s, [Effect.CloseBrowser i true, Effect.Success c1 ""]) ∧
      (OnBeforeClose (OnQuery engine s b1 f1 q1 (some json1) p1 c1).2.1 ⟨i⟩
        canceled).1.m_browsers.value i = none ∧
      OnQuery engine
          (OnBeforeClose (OnQuery engine s b1 f1 q1 (some json1) p1 c1).2.1 ⟨i⟩ canceled).1
          b2 f2 q2 (some json2) p2 c2 =
        (false,
          (OnBeforeClose (OnQuery engine s b1 f1 q1 (some json1) p1 c1).2.1 ⟨i⟩ canceled).1,
          [])) := by
  have hrun := OnQuery_closeWebPage engine s b1 f1 q1 json1 p1 c1 i ⟨i⟩ hclose hreg
  have hgone : ∀ l, (OnBeforeClose s ⟨i⟩ l).1.m_browsers.value i = none := by
    intro l
    rw [OnBeforeClose_browsers]
    exact QHash.value_remove_self _ _
  rw [hrun]
  refine ⟨rfl, ?_, ?_⟩
  · intro inside hin
    have hstep : closeOne true engine.CloseBrowser (s, []) ⟨i⟩ =
        ((OnBeforeClose s ⟨i⟩ inside).1,
          Effect.CloseBrowser i true :: (OnBeforeClose s ⟨i⟩ inside).2) := by
      simp [closeOne, hin]
    rw [hstep]
    refine ⟨by simp, hgone inside, ?_⟩
    exact OnQuery_openWebPage_unknown engine _ b2 f2 q2 json2 p2 c2 i hnav (hgone inside)
  · intro hlater
    have hstep : closeOne true engine.CloseBrowser (s, []) ⟨i⟩ =
        (s, [Effect.CloseBrowser i true]) := by
      simp [closeOne, hlater]
    rw [hstep]
    refine ⟨by simp, hgone canceled, ?_⟩
    exact OnQuery_openWebPage_unknown engine _ b2 f2 q2 json2 p2 c2 i hnav (hgone canceled)

/-- C17 amended, at concrete inputs.  With `inlineEngine` instance 7 is
destroyed inside `CloseBrowser`: it is unknown when the command is answered
and the navigate that follows fails.  With `exampleEngine` the same holds once
the instance-closed event for 7 has been handled. -/
theorem C17_closed_instance_is_unknown_witness :
    ((OnQuery inlineEngine registered7 ⟨1⟩ ⟨true⟩ 43
        (some (instanceRequest "closeWebPage" 7)) false ⟨6⟩).2.1.m_browsers.value 7 = none ∧
      OnQuery inlineEngine
          (OnQuery inlineEngine registered7 ⟨1⟩ ⟨true⟩ 43
            (some (instanceRequest "closeWebPage" 7)) false ⟨6⟩).2.1
          ⟨1⟩ ⟨true⟩ 44 (some (navigateRequest 7 "http://x")) false ⟨2⟩ =
        (false,
          (OnQuery inlineEngine registered7 ⟨1⟩ ⟨true⟩ 43
            (some (instanceRequest "closeWebPage" 7)) false ⟨6⟩).2.1,
          [])) ∧
    ((OnBeforeClose (OnQuery exampleEngine registered7 ⟨1⟩ ⟨true⟩ 43
        (some (instanceRequest "closeWebPage" 7)) false ⟨6⟩).2.1 ⟨7⟩
        []).1.m_browsers.value 7 = none ∧
      OnQuery exampleEngine
          (OnBeforeClose (OnQuery exampleEngine registered7 ⟨1⟩ ⟨true⟩ 43
            (some (instanceRequest "closeWebPage" 7)) false ⟨6⟩).2.1 ⟨7⟩ []).1
          ⟨1⟩ ⟨true⟩ 44 (some (navigateRequest 7 "http://x")) false ⟨2⟩ =
        (false,
          (OnBeforeClose (OnQuery exampleEngine registered7 ⟨1⟩ ⟨true⟩ 43
            (some (instanceRequest "closeWebPage" 7)) false ⟨6⟩).2.1 ⟨7⟩ []).1,
          [])) :=
  ⟨((C17_closed_instance_is_unknown inlineEngine registered7 ⟨1⟩ ⟨1⟩ ⟨true⟩ ⟨true⟩ 43 44
      (instanceRequest "closeWebPage" 7) (navigateRequest 7 "http://x") false false ⟨6⟩ ⟨2⟩ 7 []
      (by decide) (by decide) (by decide)).2.1 [] (by decide)).2,
   ((C17_closed_instance_is_unknown exampleEngine registered7 ⟨1⟩ ⟨1⟩ ⟨true⟩ ⟨true⟩ 43 44
      (instanceRequest "closeWebPage" 7) (navigateRequest 7 "http://x") false false ⟨6⟩ ⟨2⟩ 7 []
      (by decide) (by decide) (by decide)).2.2 (by decide)).2⟩

/-! ## C18: a failed navigation -/

/-- C18, as stated, fails: with a navigate (sink 1) outstanding for instance 7,
a main-frame load error with code `ERR_ABORTED` resolves the sink and notifies
the listener, but loads no error page. -/
theorem C18_aborted_load_shows_no_error_page :
    busy7.m_pendingOpenBrowserRequests.value 7 = some ⟨1⟩ ∧
    (OnLoadError busy7 ⟨7⟩ ⟨true⟩ ERR_ABORTED "ERR_ABORTED" "http://x").2 =
      [Effect.Failure ⟨1⟩ (-3) "load error",
       Effect.Success ⟨5⟩ (onLoadFinishedSignal false)] := by
  decide

/-- C18, amended: for a main-frame load-error event with code `code` for an
instance `i` with an outstanding navigate sink `c` (that is not also bound as
the listener of `i`), `c` is invoked exactly once, with
`Failure(code, "load error")`, and its entry is removed; for every error code
other than `ERR_ABORTED` the error page is additionally loaded into the
frame as the last call of the event. -/
theorem C18_load_error_resolves_with_failure (s : PhantomJSHandler) (i : Int) (c : Callback)
    (code : Int) (errorText failedUrl : String)
    (hpend : s.m_pendingOpenBrowserRequests.value i = some c)
    (hL : s.m_browserSignals.value i ≠ some c) :
    (OnLoadError s ⟨i⟩ ⟨true⟩ code errorText failedUrl).2 =
      Effect.Failure c code "load error" :: listenerNotification s i false ++
        (if code = ERR_ABORTED then []
         else [Effect.LoadString i ⟨true⟩ (loadErrorPage code errorText failedUrl) failedUrl]) ∧
    deliveriesTo c (OnLoadError s ⟨i⟩ ⟨true⟩ code errorText failedUrl).2 =
      [Effect.Failure c code "load error"] ∧
    (OnLoadError s ⟨i⟩ ⟨true⟩ code errorText failedUrl).1.m_pendingOpenBrowserRequests.value i
      = none ∧
    (code ≠ ERR_ABORTED →
      Effect.LoadString i ⟨true⟩ (loadErrorPage code errorText failedUrl) failedUrl ∈
        (OnLoadError s ⟨i⟩ ⟨true⟩ code errorText failedUrl).2) := by
  have hend : handleLoadEnd s ⟨i⟩ code false =
      ({ s with m_pendingOpenBrowserRequests := s.m_pendingOpenBrowserRequests.remove i },
        Effect.Failure c code "load error" :: listenerNotification s i false) := by
    rw [handleLoadEnd_pending s ⟨i⟩ code false c hpend]
    rfl
  have hrun : OnLoadError s ⟨i⟩ ⟨true⟩ code errorText failedUrl =
      ({ s with m_pendingOpenBrowserRequests := s.m_pendingOpenBrowserRequests.remove i },
        Effect.Failure c code "load error" :: listenerNotification s i false ++
          (if code = ERR_ABORTED then []
           else [Effect.LoadString i ⟨true⟩ (loadErrorPage code errorText failedUrl)
             failedUrl])) := by
    by_cases hab : code = ERR_ABORTED
    · simp only [OnLoadError, if_pos hab, hend]
      simp
    · simp only [OnLoadError, if_neg hab, hend]
      simp
  have hnote : deliveriesTo c (listenerNotification s i false) = [] := by
    unfold deliveriesTo listenerNotification
    cases hv : s.m_browserSignals.value i with
    | none => rfl
    | some L =>
      have hne : L ≠ c := fun h => hL (by rw [hv, h])
      simp [Effect.sink, hne]
  rw [hrun]
  refine ⟨rfl, ?_, QHash.value_remove_self _ _, ?_⟩
  · have hsplit : deliveriesTo c
        (Effect.Failure c code "load error" :: listenerNotification s i false ++
          (if code = ERR_ABORTED then []
           else [Effect.LoadString i ⟨true⟩ (loadErrorPage code errorText failedUrl)
             failedUrl])) =
        Effect.Failure c code "load error" ::
          (deliveriesTo c (listenerNotification s i false) ++
           deliveriesTo c (if code = ERR_ABORTED then []
             else [Effect.LoadString i ⟨true⟩ (loadErrorPage code errorText failedUrl)
               failedUrl])) := by
      simp [deliveriesTo, List.filter_append, List.filter_cons, Effect.sink]
    rw [hsplit, hnote]
    by_cases hab : code = ERR_ABORTED
    · simp [hab, deliveriesTo]
    · simp [hab, deliveriesTo, Effect.sink]
  · intro hab
    simp [hab]

/-- C18 amended, at a concrete input: a name-resolution error for instance 7
fails sink 1 once and loads the error page. -/
theorem C18_load_error_resolves_with_failure_witness :
    deliveriesTo ⟨1⟩
        (OnLoadError busy7 ⟨7⟩ ⟨true⟩ (-105) "ERR_NAME_NOT_RESOLVED" "http://x").2 =
      [Effect.Failure ⟨1⟩ (-105) "load error"] ∧
    Effect.LoadString 7 ⟨true⟩ (loadErrorPage (-105) "ERR_NAME_NOT_RESOLVED" "http://x")
        "http://x" ∈
      (OnLoadError busy7 ⟨7⟩ ⟨true⟩ (-105) "ERR_NAME_NOT_RESOLVED" "http://x").2 :=
  ⟨(C18_load_error_resolves_with_failure busy7 7 ⟨1⟩ (-105) "ERR_NAME_NOT_RESOLVED" "http://x"
      (by decide) (by decide)).2.1,
   (C18_load_error_resolves_with_failure busy7 7 ⟨1⟩ (-105) "ERR_NAME_NOT_RESOLVED" "http://x"
      (by decide) (by decide)).2.2.2 (by decide)⟩

/-! ## C19: stop -/

/-- C19: for a registered instance `i`, dispatching stop (`stopWebPage`) for
`i` is handled: the engine's `StopLoad` is called, the command's own callback
is answered with `Success` at once, and the registry, the pending-navigation
table (including any outstanding navigate for `i`), the pending-evaluation
table and the listener bindings are unchanged. -/
theorem C19_stop_answers_immediately (engine : Engine) (s : PhantomJSHandler)
    (browser : CefBrowser) (frame : CefFrame) (query_id : Int) (json : QJsonObject)
    (persistent : Bool) (callback : Callback) (i : Int)
    (hcmd : isCommandFor json "stopWebPage" i)
    (hreg : s.m_browsers.value i = some ⟨i⟩) :
    OnQuery engine s browser frame query_id (some json) persistent callback =
      (true, s, [Effect.StopLoad i, Effect.Success callback ""]) := by
  obtain ⟨htype, hid⟩ := hcmd
  simp [OnQuery, htype, hid, hreg]

/-- C19 at a concrete input: stop for instance 7 while its navigate (sink 1) is
outstanding. -/
theorem C19_stop_answers_immediately_witness :
    OnQuery exampleEngine busy7 ⟨1⟩ ⟨true⟩ 43 (some (instanceRequest "stopWebPage" 7)) false ⟨6⟩
      = (true, busy7, [Effect.StopLoad 7, Effect.Success ⟨6⟩ ""]) ∧
    busy7.m_pendingOpenBrowserRequests.value 7 = some ⟨1⟩ :=
  ⟨C19_stop_answers_immediately exampleEngine busy7 ⟨1⟩ ⟨true⟩ 43
      (instanceRequest "stopWebPage" 7) false ⟨6⟩ 7 (by decide) (by decide),
   by decide⟩

end PhantomJS
